import Mathlib

/-!
Shallow embedding of the mud-mcp server (a stateful MCP text-adventure
server written in TypeScript) and proofs about its session registry,
capability (tool/prompt) providers, change notifier and request
dispatcher.

The embedding mirrors the TypeScript sources:
  src/services/stateService.ts   — session registry and game-state mutators
  src/services/toolsService.ts   — tool registry, visibility, tool handlers
  src/services/promptsService.ts — prompt registry and visibility
  src/mcp/server.ts              — change notifier and request dispatcher
  src/index.ts                   — message wrapper, world configuration
  src/config/world.ts            — initial rooms, item/monster catalogs

JavaScript `Map`s and plain objects used as dictionaries are modelled as
association lists with first-match lookup and in-place replacement on
re-insertion (matching `Map.set` / property assignment semantics).
`Date.now()` and `Math.random()` are modelled as explicit parameters
(`now : Nat`, `win : Bool`).  The asynchronous content generator
(sampling) collaborator is modelled as an explicit oracle function.
-/

namespace MudMcp

/-- Lookup in an association list, mirroring `Map.get` / object indexing:
the first binding of the key wins. -/
def mapGet {α : Type} (m : List (String × α)) (k : String) : Option α :=
  (m.find? (fun p => p.1 = k)).map (fun p => p.2)

/-- Insertion into an association list, mirroring `Map.set` / property
assignment: an existing binding of the key is replaced in place, otherwise
the binding is appended. -/
def mapSet {α : Type} (m : List (String × α)) (k : String) (v : α) : List (String × α) :=
  if m.any (fun p => p.1 = k) then
    m.map (fun p => if p.1 = k then (k, v) else p)
  else
    m ++ [(k, v)]

/-- Per-player mutable state (types/index.ts `PlayerState`). -/
structure PlayerState where
  player_id : String
  room : String
  inventory : List String
  hasQuest : Bool
  monsterPresent : Bool
deriving Repr, DecidableEq

/-- A room of the world (types/index.ts `Room`); `exits` is the
direction-to-room-id dictionary. -/
structure Room where
  id : String
  name : String
  description : String
  exits : List (String × String)
  items : List String
  monsters : List String
  hasQuest : Bool
deriving Repr, DecidableEq

/-- The game world (types/index.ts `GameWorld`).  The `players` field is
part of the initial configuration but is never read by the services,
which keep their own player map. -/
structure GameWorld where
  rooms : List (String × Room)
  players : List (String × PlayerState)
deriving Repr, DecidableEq

/-- An item catalog entry (types/index.ts `Item`). -/
structure Item where
  name : String
  description : String
deriving Repr, DecidableEq

/-- A monster catalog entry (types/index.ts `Monster`). -/
structure Monster where
  name : String
  description : String
  health : Nat
  damage : Nat
deriving Repr, DecidableEq

/-- A quest catalog entry (types/index.ts `Quest`). -/
structure Quest where
  title : String
  description : String
  reward : String
deriving Repr, DecidableEq

/-- A session record (types/index.ts `Session`); `lastActive` holds the
creation timestamp (`Date.now()` modelled as a `Nat`). -/
structure Session where
  id : String
  playerId : String
  lastActive : Nat
deriving Repr, DecidableEq

/-- Initial room table (config/world.ts `initialRooms`). -/
def initialRooms : List (String × Room) :=
  [ ("entrance",
     { id := "entrance"
       name := "Dungeon Entrance"
       description := "You are at the entrance of a dark and foreboding dungeon. The stone walls glisten with moisture, and the air smells of earth and decay."
       exits := [("north", "hallway")]
       items := ["torch"]
       monsters := []
       hasQuest := false }),
    ("hallway",
     { id := "hallway"
       name := "Dark Hallway"
       description := "You are in a dark hallway. The walls are lined with ancient tapestries depicting epic battles."
       exits := [("south", "entrance"), ("east", "chamber")]
       items := ["key"]
       monsters := []
       hasQuest := true }),
    ("chamber",
     { id := "chamber"
       name := "Ancient Chamber"
       description := "You stand in a vast chamber with a high ceiling. Pillars carved with runes support the structure."
       exits := [("west", "hallway"), ("north", "treasure_room")]
       items := ["potion"]
       monsters := ["goblin"]
       hasQuest := false }),
    ("treasure_room",
     { id := "treasure_room"
       name := "Treasure Room"
       description := "A room filled with treasure chests and valuable artifacts. Gold coins litter the floor."
       exits := [("south", "chamber")]
       items := ["gold"]
       monsters := ["dragon"]
       hasQuest := false }) ]

/-- Initial world (config/world.ts `initialGameWorld`). -/
def initialGameWorld : GameWorld :=
  { rooms := initialRooms
    players := [ ("player1",
      { player_id := "player1"
        room := "entrance"
        inventory := []
        hasQuest := false
        monsterPresent := false }) ] }

/-- Item catalog (config/world.ts `items`). -/
def items : List (String × Item) :=
  [ ("ancient_scroll",
     { name := "Ancient Scroll"
       description := "A weathered scroll with mysterious writings." }),
    ("golden_key",
     { name := "Golden Key"
       description := "A brilliantly crafted key that seems important." }),
    ("magic_gem",
     { name := "Magic Gem"
       description := "A glowing gem pulsing with magical energy." }) ]

/-- Monster catalog (config/world.ts `monsters`). -/
def monsters : List (String × Monster) :=
  [ ("goblin",
     { name := "Cave Goblin"
       description := "A small but fierce goblin wielding a rusty dagger."
       health := 20
       damage := 5 }),
    ("dragon",
     { name := "Ancient Dragon"
       description := "A massive dragon with gleaming scales and fierce eyes."
       health := 100
       damage := 25 }) ]

/-- Quest catalog (config/world.ts `quests`). -/
def quests : List (String × Quest) :=
  [ ("hallway_quest",
     { title := "The Lost Artifact"
       description := "Find the ancient artifact hidden in the dungeon. The writings speak of a powerful magical gem."
       reward := "Unlock new areas of the dungeon" }) ]

/-- Domain change-events emitted by the state service
(`this.emit('TOOLS_CHANGED' | 'PROMPTS_CHANGED', { playerId })`).  The
payload is an `Option String` because the dispatcher's initialize branch
emits with `playerState?.player_id`, which can be `undefined`. -/
inductive GameEvent where
  | toolsChanged (playerId : Option String)
  | promptsChanged (playerId : Option String)
deriving Repr, DecidableEq

/-- State owned by the `StateService` singleton (stateService.ts):
the player map, the session map and the (shared, mutable) world. -/
structure StateService where
  players : List (String × PlayerState)
  sessions : List (String × Session)
  world : GameWorld
deriving Repr, DecidableEq

/-- The state service at process start: empty maps, initial world. -/
def initialStateService : StateService :=
  { players := [], sessions := [], world := initialGameWorld }

/-- stateService.ts `getSession`. -/
def getSession (s : StateService) (sessionId : String) : Option Session :=
  mapGet s.sessions sessionId

/-- stateService.ts `getPlayerState`. -/
def getPlayerState (s : StateService) (playerId : String) : Option PlayerState :=
  mapGet s.players playerId

/-- stateService.ts `createSession`.  The session id is the hard-coded
string `session_1234` (the code carries a TODO to replace it with real id
generation); the player id is derived from `Date.now()`, modelled by the
explicit `now` parameter. -/
def createSession (s : StateService) (now : Nat) : Session × StateService :=
  let sessionId := "session_1234"
  let playerId := "player_" ++ toString now
  let playerState : PlayerState :=
    { player_id := playerId
      room := "entrance"
      inventory := []
      hasQuest := false
      monsterPresent := false }
  let players := mapSet s.players playerId playerState
  let session : Session := { id := sessionId, playerId := playerId, lastActive := now }
  let sessions := mapSet s.sessions sessionId session
  (session, { s with players := players, sessions := sessions })

/-- stateService.ts `movePlayer`.  Returns the boolean result, the updated
service state, and the list of events emitted during the call. -/
def movePlayer (s : StateService) (playerId direction : String) :
    Bool × StateService × List GameEvent :=
  match getPlayerState s playerId with
  | none => (false, s, [])
  | some playerState =>
    match mapGet s.world.rooms playerState.room with
    | none => (false, s, [])
    | some currentRoom =>
      match mapGet currentRoom.exits direction with
      | none => (false, s, [])
      | some nextRoomId =>
        match mapGet s.world.rooms nextRoomId with
        | none => (false, s, [])
        | some nextRoom =>
          let hadMonster := playerState.monsterPresent
          let newPresent := decide (nextRoom.monsters.length > 0)
          let playerState' := { playerState with room := nextRoomId, monsterPresent := newPresent }
          let s' := { s with players := mapSet s.players playerId playerState' }
          let events :=
            if hadMonster != newPresent || decide (nextRoom.items.length > 0) then
              [GameEvent.toolsChanged (some playerId), GameEvent.promptsChanged (some playerId)]
            else []
          (true, s', events)

/-- stateService.ts `addItemToInventory`.  The `TOOLS_CHANGED` emission in
the source is wrapped in a `setTimeout`; it is still delivered, so it is
included in the returned event list. -/
def addItemToInventory (s : StateService) (playerId itemId : String) :
    Bool × StateService × List GameEvent :=
  match getPlayerState s playerId with
  | none => (false, s, [])
  | some playerState =>
    match mapGet s.world.rooms playerState.room with
    | none => (false, s, [])
    | some room =>
      if ¬ room.items.contains itemId then (false, s, [])
      else
        let playerState' := { playerState with inventory := playerState.inventory ++ [itemId] }
        let room' := { room with items := room.items.filter (fun id => id ≠ itemId) }
        let s' := { s with
          players := mapSet s.players playerId playerState'
          world := { s.world with rooms := mapSet s.world.rooms playerState.room room' } }
        let toolEvents :=
          if room'.items.length = 0 then [GameEvent.toolsChanged (some playerId)] else []
        let promptEvents :=
          if itemId = "ancient_artifact" ∧ playerState.hasQuest then
            [GameEvent.promptsChanged (some playerId)]
          else []
        (true, s', toolEvents ++ promptEvents)

/-- stateService.ts `acceptQuest`. -/
def acceptQuest (s : StateService) (playerId : String) :
    Bool × StateService × List GameEvent :=
  match getPlayerState s playerId with
  | none => (false, s, [])
  | some playerState =>
    match mapGet s.world.rooms playerState.room with
    | none => (false, s, [])
    | some room =>
      if ¬ room.hasQuest ∨ playerState.hasQuest then (false, s, [])
      else
        let playerState' := { playerState with hasQuest := true }
        let s' := { s with players := mapSet s.players playerId playerState' }
        (true, s', [GameEvent.promptsChanged (some playerId)])

/-- stateService.ts `canBattle`. -/
def canBattle (s : StateService) (playerId : String) : Bool :=
  match getPlayerState s playerId with
  | none => false
  | some playerState =>
    if ¬ playerState.monsterPresent then false
    else
      match mapGet s.world.rooms playerState.room with
      | none => false
      | some room => decide (room.monsters.length > 0)

/-- Result of stateService.ts `battle`. -/
structure BattleResult where
  success : Bool
  monsterName : Option String := none
deriving Repr, DecidableEq

/-- stateService.ts `battle`.  The 50% `Math.random()` coin flip is
modelled by the explicit `win` parameter. -/
def battle (s : StateService) (playerId : String) (win : Bool) :
    BattleResult × StateService × List GameEvent :=
  match getPlayerState s playerId with
  | none => ({ success := false }, s, [])
  | some playerState =>
    if ¬ playerState.monsterPresent then ({ success := false }, s, [])
    else
      match mapGet s.world.rooms playerState.room with
      | none => ({ success := false }, s, [])
      | some room =>
        match room.monsters with
        | [] => ({ success := false }, s, [])
        | monsterName :: _ =>
          if win then
            let room' := { room with monsters := room.monsters.filter (fun m => m ≠ monsterName) }
            let playerState' := { playerState with monsterPresent := false }
            let s' := { s with
              players := mapSet s.players playerId playerState'
              world := { s.world with rooms := mapSet s.world.rooms playerState.room room' } }
            ({ success := true, monsterName := some monsterName }, s',
              [GameEvent.toolsChanged (some playerId), GameEvent.promptsChanged (some playerId)])
          else
            ({ success := false, monsterName := some monsterName }, s, [])

/-- stateService.ts `updatePlayerRoom`. -/
def updatePlayerRoom (s : StateService) (playerId roomId : String) :
    Bool × StateService × List GameEvent :=
  match getPlayerState s playerId with
  | none => (false, s, [])
  | some playerState =>
    match mapGet s.world.rooms roomId with
    | none => (false, s, [])
    | some targetRoom =>
      let oldRoom := playerState.room
      let hadMonster := playerState.monsterPresent
      let newPresent := decide (targetRoom.monsters.length > 0)
      let playerState' := { playerState with room := roomId, monsterPresent := newPresent }
      let s' := { s with players := mapSet s.players playerId playerState' }
      let events :=
        if hadMonster != newPresent || decide (targetRoom.items.length > 0) || oldRoom ≠ roomId then
          [GameEvent.toolsChanged (some playerId), GameEvent.promptsChanged (some playerId)]
        else []
      (true, s', events)

/-- stateService.ts `removeItemFromRoom`. -/
def removeItemFromRoom (s : StateService) (roomId itemId : String) :
    Bool × StateService :=
  match mapGet s.world.rooms roomId with
  | none => (false, s)
  | some room =>
    if ¬ room.items.contains itemId then (false, s)
    else
      let room' := { room with items := room.items.filter (fun id => id ≠ itemId) }
      (true, { s with world := { s.world with rooms := mapSet s.world.rooms roomId room' } })

/-- Lowercasing, modelling JavaScript `String.prototype.toLowerCase` on
the ASCII strings the game uses. -/
def strToLower (s : String) : String := String.mk (s.data.map Char.toLower)

/-- Substring test, modelling JavaScript `String.prototype.includes`. -/
def strIncludes (s sub : String) : Bool := decide (List.IsInfix sub.data s.data)

/-- First-letter capitalization, modelling
`direction.charAt(0).toUpperCase() + direction.slice(1)`. -/
def capitalizeFirst (s : String) : String :=
  match s.data with
  | [] => ""
  | c :: cs => String.mk (c.toUpper :: cs)

/-- Schema of a single tool parameter, as written in the
`registerDefaultTools` literals (a `type`, a `description`, and for the
move tool an `enum` of allowed values, here `enumVals`). -/
structure PropertySchema where
  type : String
  description : String
  enumVals : List String := []
deriving Repr, DecidableEq

/-- The `inputSchema` of a tool descriptor (types/index.ts `Tool`). -/
structure InputSchema where
  type : String := "object"
  properties : List (String × PropertySchema) := []
  required : List String := []
deriving Repr, DecidableEq

/-- The MCP behavior hints attached to each tool descriptor. -/
structure ToolAnnotations where
  title : String
  readOnlyHint : Bool
  destructiveHint : Bool
  idempotentHint : Bool
  openWorldHint : Bool
deriving Repr, DecidableEq

/-- A tool descriptor (types/index.ts `Tool`). -/
structure Tool where
  name : String
  description : String
  inputSchema : InputSchema
  annotations : ToolAnnotations
deriving Repr, DecidableEq

/-- One item of a tool result's `content` array. -/
structure ContentItem where
  type : String
  text : String
deriving Repr, DecidableEq

/-- A tool execution result (types/mcp.ts `ToolResult`): content plus the
optional `isError` flag, absent (`none`) on plain success returns. -/
structure ToolResult where
  content : List ContentItem
  isError : Option Bool := none
deriving Repr, DecidableEq

/-- The look tool descriptor (toolsService.ts `registerDefaultTools`). -/
def lookTool : Tool :=
  { name := "look"
    description := "Examine your current surroundings and see what\x27s available in the room."
    inputSchema := { type := "object", properties := [], required := [] }
    annotations :=
      { title := "Look Around"
        readOnlyHint := true
        destructiveHint := false
        idempotentHint := true
        openWorldHint := false } }

/-- The move tool descriptor. -/
def moveTool : Tool :=
  { name := "move"
    description := "Move to a different room in the specified direction."
    inputSchema :=
      { type := "object"
        properties :=
          [ ("direction",
             { type := "string"
               description := "The direction to move (north, south, east, west)"
               enumVals := ["north", "south", "east", "west"] }) ]
        required := ["direction"] }
    annotations :=
      { title := "Move"
        readOnlyHint := false
        destructiveHint := false
        idempotentHint := false
        openWorldHint := false } }

/-- The inventory tool descriptor. -/
def inventoryTool : Tool :=
  { name := "inventory"
    description := "Check your inventory contents and see what items you\x27re carrying."
    inputSchema := { type := "object", properties := [], required := [] }
    annotations :=
      { title := "Check Inventory"
        readOnlyHint := true
        destructiveHint := false
        idempotentHint := true
        openWorldHint := false } }

/-- The take tool descriptor. -/
def takeTool : Tool :=
  { name := "take"
    description := "Take an item from the current room and add it to your inventory."
    inputSchema :=
      { type := "object"
        properties :=
          [ ("item",
             { type := "string"
               description := "The name of the item to take" }) ]
        required := ["item"] }
    annotations :=
      { title := "Take Item"
        readOnlyHint := false
        destructiveHint := false
        idempotentHint := false
        openWorldHint := false } }

/-- The battle tool descriptor. -/
def battleTool : Tool :=
  { name := "battle"
    description := "Engage in combat with a monster in the current room."
    inputSchema :=
      { type := "object"
        properties :=
          [ ("monster",
             { type := "string"
               description := "The name of the monster to battle" }) ]
        required := ["monster"] }
    annotations :=
      { title := "Battle Monster"
        readOnlyHint := false
        destructiveHint := true
        idempotentHint := false
        openWorldHint := false } }

/-- The talk tool descriptor. -/
def talkTool : Tool :=
  { name := "talk"
    description := "Talk to NPCs, monsters, or mystical entities using AI-powered dialogue generation."
    inputSchema :=
      { type := "object"
        properties :=
          [ ("target",
             { type := "string"
               description := "Who or what to talk to (monster, spirit, echo, etc.)" }),
            ("message",
             { type := "string"
               description := "What you want to say or ask" }) ]
        required := ["target", "message"] }
    annotations :=
      { title := "Talk/Communicate"
        readOnlyHint := false
        destructiveHint := false
        idempotentHint := false
        openWorldHint := true } }

/-- The `this.tools` registry of the tools service, in registration order
(toolsService.ts constructor via `registerDefaultTools`). -/
def toolsMap : List (String × Tool) :=
  [ ("look", lookTool), ("move", moveTool), ("inventory", inventoryTool),
    ("take", takeTool), ("battle", battleTool), ("talk", talkTool) ]

/-- toolsService.ts `getAvailableTools`: the tools visible to a player,
recomputed from current state on every call.  `samplingAvailable` models
`samplingService.isAvailable()`; a `none` player id models calling with
`undefined`. -/
def getAvailableTools (s : StateService) (samplingAvailable : Bool)
    (playerId : Option String) : List Tool :=
  match playerId with
  | none => [lookTool, inventoryTool]
  | some pid =>
    match getPlayerState s pid with
    | none => [lookTool, inventoryTool]
    | some playerState =>
      match mapGet s.world.rooms playerState.room with
      | none => [lookTool, inventoryTool]
      | some room =>
        [lookTool, inventoryTool]
          ++ (if room.exits.length > 0 then [moveTool] else [])
          ++ (if room.items.length > 0 then [takeTool] else [])
          ++ (if room.monsters.length > 0 then [battleTool] else [])
          ++ (if samplingAvailable then [talkTool] else [])

/-- A single text content item, the shape every handler returns. -/
def textContent (t : String) : List ContentItem := [{ type := "text", text := t }]

/-- An `isError: true` tool result. -/
def errorResult (t : String) : ToolResult :=
  { content := textContent t, isError := some true }

/-- Display name of an item id (`item ? item.name : itemId`). -/
def itemDisplayName (itemId : String) : String :=
  match mapGet items itemId with
  | some it => it.name
  | none => itemId

/-- Display name of a monster id (`monster ? monster.name : monsterId`). -/
def monsterDisplayName (monsterId : String) : String :=
  match mapGet monsters monsterId with
  | some m => m.name
  | none => monsterId

/-- Error message of the JavaScript TypeError raised when a handler calls
`.toLowerCase()` on a missing (undefined) argument. -/
def undefinedToLowerCaseMsg : String :=
  "Cannot read properties of undefined (reading \x27toLowerCase\x27)"

/-- Arguments passed to a tool call; each field is `none` when the
corresponding key is absent from the JSON arguments object. -/
structure ToolParams where
  direction : Option String := none
  item : Option String := none
  monster : Option String := none
  target : Option String := none
  message : Option String := none
deriving Repr, DecidableEq

/-- toolsService.ts `lookHandler` (read-only, so only the result is
returned). -/
def lookHandler (s : StateService) (ctxSessionId : Option String) : ToolResult :=
  match ctxSessionId with
  | none => errorResult "Error: Session initialization failed."
  | some sid =>
    match getSession s sid with
    | none => errorResult "Error: Invalid session. Please try again."
    | some session =>
      match getPlayerState s session.playerId with
      | none => errorResult "Error: Could not find player state. Please try again."
      | some playerState =>
        match mapGet s.world.rooms playerState.room with
        | none => errorResult "Error: Invalid room."
        | some room =>
          let exits := String.intercalate ", " (room.exits.map (fun p => capitalizeFirst p.1))
          let itemsText :=
            if room.items.length > 0 then
              "\nYou see: " ++ String.intercalate ", " (room.items.map itemDisplayName) ++ "."
            else "\nThere are no items here."
          let monsterText :=
            if room.monsters.length > 0 then
              "\nA " ++ String.intercalate ", " (room.monsters.map monsterDisplayName)
                ++ " growls menacingly at you!"
            else ""
          let questText :=
            if room.hasQuest ∧ ¬ playerState.hasQuest then
              "\nThere is a quest available here."
            else ""
          { content := textContent
              (room.description ++ "\n\nExits: " ++ exits ++ "." ++ itemsText
                ++ monsterText ++ questText) }

/-- toolsService.ts `moveHandler`.  The handler has its own try/catch, so
the TypeError from a missing `direction` argument surfaces as its
`Error moving: …` result. -/
def moveHandler (s : StateService) (ctxSessionId : Option String)
    (direction? : Option String) : ToolResult × StateService × List GameEvent :=
  match ctxSessionId with
  | none => (errorResult "Error: No session ID provided.", s, [])
  | some sid =>
    match getSession s sid with
    | none => (errorResult "Error: Session not found. Please restart the game.", s, [])
    | some session =>
      match getPlayerState s session.playerId with
      | none => (errorResult "Error: Player state not found. Please restart the game.", s, [])
      | some playerState =>
        match mapGet s.world.rooms playerState.room with
        | none => (errorResult "Error: Current room not found.", s, [])
        | some currentRoom =>
          match direction? with
          | none => (errorResult ("Error moving: " ++ undefinedToLowerCaseMsg), s, [])
          | some direction =>
            match mapGet currentRoom.exits (strToLower direction) with
            | none =>
              ({ content := textContent ("You can\x27t go " ++ direction ++ " from here.")
                 isError := some false }, s, [])
            | some targetRoomId =>
              match mapGet s.world.rooms targetRoomId with
              | none => (errorResult "Error: Target room not found.", s, [])
              | some targetRoom =>
                let r := updatePlayerRoom s session.playerId targetRoomId
                ({ content := textContent
                     ("You move " ++ direction ++ " to " ++ targetRoom.name ++ ".") },
                 r.2.1, r.2.2 ++ [GameEvent.toolsChanged (some session.playerId)])

/-- toolsService.ts `inventoryHandler` (read-only). -/
def inventoryHandler (s : StateService) (ctxSessionId : Option String) : ToolResult :=
  match ctxSessionId with
  | none => errorResult "Error: Session initialization failed."
  | some sid =>
    match getSession s sid with
    | none => errorResult "Error: Invalid session. Please try again."
    | some session =>
      match getPlayerState s session.playerId with
      | none => errorResult "Error: Could not find player state. Please try again."
      | some playerState =>
        if playerState.inventory.length = 0 then
          { content := textContent "Your inventory is empty." }
        else
          { content := textContent
              ("You are carrying: "
                ++ String.intercalate ", " (playerState.inventory.map itemDisplayName)
                ++ ".") }

/-- toolsService.ts `takeHandler`.  The handler has no try/catch, so the
TypeError from a missing `item` argument propagates to `executeTool`
(modelled by the `Except.error` branch). -/
def takeHandler (s : StateService) (ctxSessionId : Option String)
    (item? : Option String) :
    Except String (ToolResult × StateService × List GameEvent) :=
  match ctxSessionId with
  | none => .ok (errorResult "Error: Session initialization failed.", s, [])
  | some sid =>
    match getSession s sid with
    | none => .ok (errorResult "Error: Invalid session. Please try again.", s, [])
    | some session =>
      match getPlayerState s session.playerId with
      | none => .ok (errorResult "Error: Could not find player state. Please try again.", s, [])
      | some playerState =>
        match mapGet s.world.rooms playerState.room with
        | none => .ok (errorResult "Error: Invalid room.", s, [])
        | some room =>
          match item? with
          | none => .error undefinedToLowerCaseMsg
          | some item =>
            let found := items.find? (fun p => strToLower p.2.name = strToLower item)
            let noItemResult : ToolResult :=
              let availableItems := String.intercalate ", " (room.items.map itemDisplayName)
              let debugText :=
                if room.items.length > 0 then
                  "Available items in this room: " ++ availableItems ++ ". Looking for: " ++ item
                else "No items in this room. Looking for: " ++ item
              { content := textContent
                  ("There is no " ++ item ++ " here to take. " ++ debugText)
                isError := some false }
            match found with
            | none => .ok (noItemResult, s, [])
            | some (itemId, itemData) =>
              if ¬ room.items.contains itemId then .ok (noItemResult, s, [])
              else
                let r1 := addItemToInventory s session.playerId itemId
                let r2 := removeItemFromRoom r1.2.1 playerState.room itemId
                .ok ({ content := textContent ("You take the " ++ itemData.name ++ ".") },
                  r2.2, r1.2.2 ++ [GameEvent.toolsChanged (some session.playerId)])

/-- toolsService.ts `battleHandler`.  `Math.random() > 0.5` is the `win`
parameter; a missing `monster` argument propagates as a TypeError. -/
def battleHandler (s : StateService) (ctxSessionId : Option String)
    (monster? : Option String) (win : Bool) :
    Except String (ToolResult × StateService × List GameEvent) :=
  match ctxSessionId with
  | none => .ok (errorResult "Error: Session initialization failed.", s, [])
  | some sid =>
    match getSession s sid with
    | none => .ok (errorResult "Error: Invalid session. Please try again.", s, [])
    | some session =>
      match getPlayerState s session.playerId with
      | none => .ok (errorResult "Error: Could not find player state. Please try again.", s, [])
      | some playerState =>
        match mapGet s.world.rooms playerState.room with
        | none => .ok (errorResult "Error: Invalid room.", s, [])
        | some room =>
          match monster? with
          | none => .error undefinedToLowerCaseMsg
          | some monster =>
            match monsters.find? (fun p => strToLower p.2.name = strToLower monster) with
            | none =>
              .ok ({ content := textContent ("There is no " ++ monster ++ " here to battle.")
                     isError := some false }, s, [])
            | some (monsterId, monsterData) =>
              if ¬ room.monsters.contains monsterId then
                .ok ({ content := textContent ("There is no " ++ monster ++ " here to battle.")
                       isError := some false }, s, [])
              else if win then
                let room' := { room with monsters := room.monsters.filter (fun id => id ≠ monsterId) }
                let s1 := { s with world :=
                  { s.world with rooms := mapSet s.world.rooms playerState.room room' } }
                let r := updatePlayerRoom s1 session.playerId playerState.room
                .ok ({ content := textContent
                         ("You successfully defeat the " ++ monsterData.name
                           ++ "! The creature falls and disappears into shadows.") },
                  r.2.1, r.2.2 ++ [GameEvent.toolsChanged (some session.playerId)])
              else
                .ok ({ content := textContent
                         ("The " ++ monsterData.name
                           ++ " proves too strong! You retreat but remain in the room. Try again when you\x27re ready.") },
                  s, [])

/-- toolsService.ts `talkHandler` (read-only).  The asynchronous content
generator (`samplingService.generateNPCDialogue`) is the external
collaborator oracle `gen npcName playerMessage gameContext`; its failure
is the handler's caught error branch.  The whole handler body sits in a
try/catch, so a missing `target` argument surfaces as the caught
TypeError; a missing `message` renders as the string `undefined` when
interpolated. -/
def talkHandler (s : StateService) (ctxSessionId : Option String)
    (samplingAvailable : Bool) (gen : String → String → String → Except String String)
    (target? message? : Option String) : ToolResult :=
  match ctxSessionId with
  | none => errorResult "Error: Session initialization failed."
  | some sid =>
    match getSession s sid with
    | none => errorResult "Error: Session not found. Please restart the game."
    | some session =>
      if ¬ samplingAvailable then
        errorResult "AI-powered dialogue is not available. This feature requires a client that supports sampling."
      else
        match getPlayerState s session.playerId with
        | none => errorResult "Error: Could not find player state."
        | some playerState =>
          match mapGet s.world.rooms playerState.room with
          | none => errorResult "Error: Invalid room."
          | some room =>
            match target? with
            | none =>
              errorResult ("Error during conversation: " ++ undefinedToLowerCaseMsg
                ++ ". The mystical forces seem to be silent right now.")
            | some target =>
              let message := message?.getD "undefined"
              let gameContext :=
                "Current room: " ++ room.description
                  ++ "\nItems in room: "
                  ++ (if room.items.length > 0 then String.intercalate ", " room.items else "none")
                  ++ "\nMonsters in room: "
                  ++ (if room.monsters.length > 0 then String.intercalate ", " room.monsters else "none")
                  ++ "\nPlayer inventory: "
                  ++ (if playerState.inventory.length > 0 then
                        String.intercalate ", " playerState.inventory
                      else "empty")
                  ++ "\nPlayer has quest: " ++ (if playerState.hasQuest then "yes" else "no")
              let monsterMatches := fun (monsterId : String) =>
                match mapGet monsters monsterId with
                | some m =>
                  strIncludes (strToLower m.name) (strToLower target)
                    || strIncludes (strToLower monsterId) (strToLower target)
                | none => false
              let isMonster := room.monsters.any monsterMatches
              let response :=
                if isMonster then
                  let monsterName := room.monsters.find? monsterMatches
                  let monster := monsterName.bind (fun id => mapGet monsters id)
                  let actualMonsterName :=
                    match monster with
                    | some m => m.name
                    | none => target
                  gen actualMonsterName message
                    (gameContext ++ "\n\nThe player is talking to a " ++ actualMonsterName
                      ++ " - a dangerous creature that might respond with hostility, curiosity, or unexpected wisdom depending on the approach.")
                else if strIncludes (strToLower target) "spirit"
                    || strIncludes (strToLower target) "ghost"
                    || strIncludes (strToLower target) "echo" then
                  gen "Ancient Spirit" message
                    (gameContext
                      ++ "\n\nThe player is attempting to communicate with mystical forces or echoes in this ancient place. The spirit might offer cryptic wisdom, warnings, or riddles.")
                else if strIncludes (strToLower target) "wall"
                    || strIncludes (strToLower target) "stone"
                    || strIncludes (strToLower target) "room" then
                  gen "Ancient Echoes" message
                    (gameContext
                      ++ "\n\nThe player is talking to the room itself or objects within it. Ancient magic might cause echoes or whispers to respond with memories of past events.")
                else
                  gen target message
                    (gameContext ++ "\n\nThe player is talking to someone or something called \""
                      ++ target ++ "\". Respond as this entity would in the context of a fantasy adventure.")
              match response with
              | .error e =>
                errorResult ("Error during conversation: " ++ e
                  ++ ". The mystical forces seem to be silent right now.")
              | .ok r =>
                { content := textContent
                    ("You speak to " ++ target ++ ": \"" ++ message ++ "\"\n\n" ++ r) }

/-- toolsService.ts `executeTool`: handler lookup by name with a
`Tool not found` fallback, and the catch that turns a handler exception
into an `Error executing tool …` result. -/
def executeTool (s : StateService) (samplingAvailable win : Bool)
    (gen : String → String → String → Except String String)
    (name : String) (params : ToolParams) (ctxSessionId : Option String) :
    ToolResult × StateService × List GameEvent :=
  match name with
  | "look" => (lookHandler s ctxSessionId, s, [])
  | "move" => moveHandler s ctxSessionId params.direction
  | "inventory" => (inventoryHandler s ctxSessionId, s, [])
  | "take" =>
    match takeHandler s ctxSessionId params.item with
    | .ok out => out
    | .error msg => (errorResult ("Error executing tool \x27take\x27: " ++ msg), s, [])
  | "battle" =>
    match battleHandler s ctxSessionId params.monster win with
    | .ok out => out
    | .error msg => (errorResult ("Error executing tool \x27battle\x27: " ++ msg), s, [])
  | "talk" => (talkHandler s ctxSessionId samplingAvailable gen params.target params.message, s, [])
  | _ => (errorResult ("Tool \x27" ++ name ++ "\x27 not found."), s, [])

/-- An argument slot of a prompt descriptor (types/index.ts `Prompt`). -/
structure PromptArgument where
  name : String
  description : String := ""
  required : Bool := false
deriving Repr, DecidableEq

/-- A prompt descriptor (types/index.ts `Prompt`). -/
structure Prompt where
  name : String
  description : String
  arguments : List PromptArgument := []
deriving Repr, DecidableEq

/-- One message of a prompt response. -/
structure PromptMessage where
  role : String
  content : ContentItem
deriving Repr, DecidableEq

/-- A prompt execution result (types/index.ts `PromptResponse`). -/
structure PromptResponse where
  messages : List PromptMessage
deriving Repr, DecidableEq

/-- A single assistant text message, the shape every prompt handler
returns. -/
def assistantText (t : String) : PromptResponse :=
  { messages := [{ role := "assistant", content := { type := "text", text := t } }] }

/-- The room-description prompt descriptor (promptsService.ts
`registerDefaultPrompts`). -/
def roomDescriptionPrompt : Prompt :=
  { name := "room_description"
    description := "A description of your current location with contextual details about the environment, available items, and nearby creatures."
    arguments :=
      [ { name := "detail_level"
          description := "The level of detail for the room description (brief, normal, detailed)"
          required := false } ] }

/-- The welcome prompt descriptor. -/
def welcomePrompt : Prompt :=
  { name := "welcome"
    description := "A welcome message that introduces the player to the MUD game world and explains the basic mechanics." }

/-- The inventory prompt descriptor. -/
def inventoryPromptDef : Prompt :=
  { name := "inventory_prompt"
    description := "A summary of items in your inventory with detailed descriptions and potential uses." }

/-- The quest prompt descriptor. -/
def questPromptDef : Prompt :=
  { name := "quest_prompt"
    description := "Information about available quests, including objectives, rewards, and requirements." }

/-- The battle prompt descriptor. -/
def battlePromptDef : Prompt :=
  { name := "battle_prompt"
    description := "Combat guidance and strategy when facing monsters, including enemy information and battle options." }

/-- The `this.prompts` registry of the prompts service, in registration
order. -/
def promptsMap : List (String × Prompt) :=
  [ ("room_description", roomDescriptionPrompt), ("welcome", welcomePrompt),
    ("inventory_prompt", inventoryPromptDef), ("quest_prompt", questPromptDef),
    ("battle_prompt", battlePromptDef) ]

/-- promptsService.ts `getAvailablePrompts`: visibility filter over the
prompt registry.  A `none` player id models calling with `undefined`;
the source also returns `[]` for the empty string (falsy) and the
special id `all`. -/
def getAvailablePrompts (s : StateService) (playerId : Option String) : List Prompt :=
  match playerId with
  | none => []
  | some pid =>
    if pid = "" ∨ pid = "all" then []
    else
      match getPlayerState s pid with
      | none => []
      | some playerState =>
        let room := mapGet s.world.rooms playerState.room
        ((promptsMap.filter (fun p =>
          let definition := p.2
          if definition.name = "room_description" then true
          else if definition.name = "welcome" then true
          else if definition.name = "inventory_prompt" then true
          else if definition.name = "quest_prompt" then
            match room with
            | some r => r.hasQuest && !playerState.hasQuest
            | none => false
          else if definition.name = "battle_prompt" then
            playerState.monsterPresent &&
              (match room with
               | some r => decide (r.monsters.length > 0)
               | none => false)
          else true)).map (fun p => p.2))

/-- The room-description prompt handler (promptsService.ts). -/
def roomDescriptionHandler (s : StateService) (ctxSessionId : Option String)
    (detailLevel? : Option String) : PromptResponse :=
  match ctxSessionId with
  | none => assistantText "Error: No session ID provided."
  | some sid =>
    match getSession s sid with
    | none => assistantText "Error: Session not found."
    | some session =>
      match getPlayerState s session.playerId with
      | none => assistantText "Error: Player state not found."
      | some playerState =>
        match mapGet s.world.rooms playerState.room with
        | none => assistantText "Error: Room not found."
        | some room =>
          let detailLevel := detailLevel?.getD "normal"
          let description :=
            if detailLevel = "detailed" then
              room.description
                ++ "\n\nThis room has " ++ toString room.exits.length ++ " exits."
                ++ (if room.items.length > 0 then
                      " There are " ++ toString room.items.length ++ " items here."
                    else "")
                ++ (if room.monsters.length > 0 then " There are monsters lurking here."
                    else "")
            else if detailLevel = "brief" then room.name
            else room.description
          assistantText ("You are in " ++ room.name ++ ".\n\n" ++ description)

/-- The welcome prompt handler. -/
def welcomeHandler : PromptResponse :=
  assistantText
    ("Welcome to the MUD Adventure Game!\n\nYou find yourself in a mysterious world filled with rooms to explore, items to collect, and creatures to encounter. Use the available tools to look around, move between rooms, check your inventory, and interact with the environment.\n\nGood luck on your adventure!")

/-- The inventory prompt handler. -/
def inventoryPromptHandler (s : StateService) (ctxSessionId : Option String) : PromptResponse :=
  match ctxSessionId with
  | none => assistantText "Error: No session ID provided."
  | some sid =>
    match getSession s sid with
    | none => assistantText "Error: Session not found."
    | some session =>
      match getPlayerState s session.playerId with
      | none => assistantText "Error: Player state not found."
      | some playerState =>
        if playerState.inventory.length = 0 then
          assistantText "Your inventory is empty. Explore the world to find items!"
        else
          let inventoryDetails := String.intercalate "\n"
            (playerState.inventory.map (fun itemId =>
              match mapGet items itemId with
              | some it => it.name ++ ": " ++ it.description
              | none => itemId))
          assistantText ("Your Inventory:\n\n" ++ inventoryDetails)

/-- The quest prompt handler.  The source reads `quests.find_artifact`,
a key absent from the quest catalog, so the inline fallback object is
always used. -/
def questPromptHandler (s : StateService) (ctxSessionId : Option String) : PromptResponse :=
  match ctxSessionId with
  | none => assistantText "Error: No session ID provided."
  | some sid =>
    match getSession s sid with
    | none => assistantText "Error: Session not found."
    | some session =>
      match getPlayerState s session.playerId with
      | none => assistantText "Error: Player state not found."
      | some playerState =>
        let room := mapGet s.world.rooms playerState.room
        match room with
        | none => assistantText "No quests are available here right now."
        | some r =>
          if ¬ r.hasQuest ∨ playerState.hasQuest then
            assistantText "No quests are available here right now."
          else
            let questInfo := (mapGet quests "find_artifact").getD
              { title := "Find the Ancient Artifact"
                description := "Search the dungeon for the legendary ancient artifact."
                reward := "Fame and fortune await!" }
            assistantText
              ("Quest Available: " ++ questInfo.title ++ "\n\n" ++ questInfo.description
                ++ "\n\nReward: " ++ questInfo.reward
                ++ "\n\nWould you like to accept this quest?")

/-- The battle prompt handler. -/
def battlePromptHandler (s : StateService) (ctxSessionId : Option String) : PromptResponse :=
  match ctxSessionId with
  | none => assistantText "Error: No session ID provided."
  | some sid =>
    match getSession s sid with
    | none => assistantText "Error: Session not found."
    | some session =>
      match getPlayerState s session.playerId with
      | none => assistantText "Error: Player state not found."
      | some playerState =>
        let room := mapGet s.world.rooms playerState.room
        match room with
        | none => assistantText "No monsters are present. You are safe for now."
        | some r =>
          if ¬ playerState.monsterPresent ∨ r.monsters.length = 0 then
            assistantText "No monsters are present. You are safe for now."
          else
            let monsterNames := String.intercalate ", " (r.monsters.map monsterDisplayName)
            assistantText
              ("Combat Situation!\n\nYou are facing: " ++ monsterNames
                ++ "\n\nPrepare for battle! You can engage in combat or try to find another way around. Choose your strategy carefully.")

/-- promptsService.ts `executePrompt`: handler lookup by name over the
concrete registry with the `Prompt not found` fallback.  The only prompt
parameter read by a handler is `detail_level`. -/
def executePrompt (s : StateService) (name : String) (detailLevel? : Option String)
    (ctxSessionId : Option String) : PromptResponse :=
  match name with
  | "room_description" => roomDescriptionHandler s ctxSessionId detailLevel?
  | "welcome" => welcomeHandler
  | "inventory_prompt" => inventoryPromptHandler s ctxSessionId
  | "quest_prompt" => questPromptHandler s ctxSessionId
  | "battle_prompt" => battlePromptHandler s ctxSessionId
  | _ => assistantText ("Prompt \x27" ++ name ++ "\x27 not found.")

/-- The wire form of a tool descriptor as sent in `tools/list` responses
and `tools/list_changed` notifications: name, description, inputSchema. -/
structure WireTool where
  name : String
  description : String
  inputSchema : InputSchema
deriving Repr, DecidableEq

/-- The `params` object of a list_changed notification: the tools
notification embeds a `tools` array, the prompts notification a
`prompts` array. -/
structure NotificationParams where
  tools : Option (List WireTool) := none
  prompts : Option (List Prompt) := none
deriving Repr, DecidableEq

/-- A JSON-RPC notification: a method and optional params, and — by
construction of this type — no `id`, so no reply is expected. -/
structure NotificationMessage where
  method : String
  params : Option NotificationParams := none
deriving Repr, DecidableEq

/-- The per-tool mapping done inside server.ts `notifyToolsChanged`.  The
source first builds an empty-schema record and then overwrites it
whenever `tool.inputSchema.properties` is truthy; every registered tool
carries a `properties` object (possibly empty, still truthy), so the
overwrite always happens. -/
def toWireTool (tool : Tool) : WireTool :=
  { name := tool.name
    description := tool.description
    inputSchema :=
      { type := "object"
        properties := tool.inputSchema.properties
        required := tool.inputSchema.required } }

/-- The per-tool mapping done in the `tools/list` response (server.ts),
which passes `inputSchema` through unchanged. -/
def toWireToolDirect (tool : Tool) : WireTool :=
  { name := tool.name
    description := tool.description
    inputSchema := tool.inputSchema }

/-- server.ts `notifyToolsChanged`: recomputes the available tools for
the player and sends a `notifications/tools/list_changed` message whose
params embed that list.  Returns `none` (nothing sent) when no transport
sender is installed. -/
def notifyToolsChanged (hasTransport : Bool) (s : StateService)
    (samplingAvailable : Bool) (playerId : Option String) : Option NotificationMessage :=
  if ¬ hasTransport then none
  else
    let availableTools := getAvailableTools s samplingAvailable playerId
    some { method := "notifications/tools/list_changed"
           params := some { tools := some (availableTools.map toWireTool) } }

/-- server.ts `notifyPromptsChanged`: bails out when the player state is
absent, otherwise sends a `notifications/prompts/list_changed` message
whose params embed the recomputed prompt list. -/
def notifyPromptsChanged (hasTransport : Bool) (s : StateService)
    (playerId : Option String) : Option NotificationMessage :=
  if ¬ hasTransport then none
  else
    match playerId.bind (fun pid => getPlayerState s pid) with
    | none => none
    | some _ =>
      some { method := "notifications/prompts/list_changed"
             params := some { prompts := some (getAvailablePrompts s playerId) } }

/-- The server constructor's event listeners: each `TOOLS_CHANGED` /
`PROMPTS_CHANGED` event is turned into the corresponding list_changed
notification, computed against the state current when the listener
runs (the post-mutation state). -/
def notificationsForEvents (hasTransport : Bool) (s : StateService)
    (samplingAvailable : Bool) (events : List GameEvent) : List NotificationMessage :=
  events.filterMap (fun ev =>
    match ev with
    | .toolsChanged pid => notifyToolsChanged hasTransport s samplingAvailable pid
    | .promptsChanged pid => notifyPromptsChanged hasTransport s pid)

/-- server.ts `publishInitialLists`: creates a session and pushes one
tools and one prompts notification for its player. -/
def publishInitialLists (s : StateService) (hasTransport samplingAvailable : Bool)
    (now : Nat) : StateService × List NotificationMessage :=
  let r := createSession s now
  let session := r.1
  let s' := r.2
  (s', ([notifyToolsChanged hasTransport s' samplingAvailable (some session.playerId),
         notifyPromptsChanged hasTransport s' (some session.playerId)]).filterMap id)

/-- A resource definition as registered with the server (types/mcp.ts
`ResourceDefinition`, flattened to the fields server.ts reads). -/
structure ResourceDefinition where
  uriPattern : Option String := none
  name : Option String := none
  description : Option String := none

/-- One entry of a resource read result. -/
structure ResourceContents where
  uri : String
  text : String
deriving Repr, DecidableEq

/-- The result of reading a resource. -/
structure ResourceResult where
  contents : List ResourceContents
deriving Repr, DecidableEq

/-- An entry of the server's `this.resources` map.  Resources are
registered by src/game/resources.ts, which is not part of the snapshot,
so the zod parameter validation and the handler are folded into one
result-valued function whose failure propagates as a thrown error. -/
structure ResourceEntry where
  definition : ResourceDefinition
  run : List (String × String) → Except String ResourceResult

/-- The wire form of a resource in `resources/list` responses
(`name: definition.name || definition.uriPattern`,
`description: definition.description || ''`). -/
structure WireResource where
  uri : Option String
  name : Option String
  description : String
deriving Repr, DecidableEq

/-- The mutable state of the `McpServer` instance plus the module state
of the sampling service: the state-service singleton, the resource map,
the stored client capabilities flag, whether a sampling handler is
registered (`samplingService.isAvailable()`), and whether a transport
sender is installed. -/
structure McpServerState where
  svc : StateService
  resources : List (String × ResourceEntry) := []
  clientSamplingCapability : Bool := false
  samplingAvailable : Bool := false
  hasTransport : Bool := true

/-- An incoming request envelope with the params fields the dispatcher
reads; absent JSON fields are `none` / default. -/
structure McpRequest where
  id : Nat
  method : String
  paramsSessionId : Option String := none
  paramsName : Option String := none
  paramsArgs : ToolParams := {}
  paramsUri : Option String := none
  paramsCapabilitySampling : Bool := false
  paramsDetailLevel : Option String := none
  paramsResourceParameters : List (String × String) := []
deriving Repr, DecidableEq

/-- The result payload of a successful `initialize`. -/
structure InitializeResult where
  protocolVersion : String
  toolsListChanged : Bool
  promptsListChanged : Bool
  resourcesListChanged : Bool
  resourcesSubscribe : Bool
  serverName : String
  serverVersion : String
  serverDescription : String
  sessionId : String
  instructions : String
deriving Repr, DecidableEq

/-- The result payload of a response, one constructor per handled
method. -/
inductive McpResult where
  | initResult (r : InitializeResult)
  | toolsList (tools : List WireTool)
  | toolCall (r : ToolResult)
  | promptsList (prompts : List Prompt)
  | promptGet (r : PromptResponse)
  | resourcesList (rs : List WireResource)
  | resourceRead (r : ResourceResult)
  | pingResult
deriving Repr, DecidableEq

/-- The method table of the dispatcher: the cases of the `switch` in
server.ts `handleRequest`. -/
def knownMethods : List String :=
  ["initialize", "tools/list", "tools/call", "prompts/list", "prompts/get",
   "resources/list", "resources/read", "ping", "notifications/initialized",
   "sampling/createMessage"]

/-- The outcome of one `handleRequest` call: the returned value (a
response payload with its echoed id, `none` for notification methods) or
the thrown error, the post-call server state, the domain events emitted
during the call, and the notifications sent directly
(`publishInitialLists`). -/
structure HandleOutcome where
  result : Except String (Option (Nat × McpResult))
  state : McpServerState
  events : List GameEvent := []
  sent : List NotificationMessage := []

/-- server.ts `handleRequest`: session pre-resolution followed by the
method switch.  `now` models `Date.now()`, `win` the battle coin flip and
`gen` the sampling collaborator. -/
def handleRequest (st : McpServerState) (now : Nat) (win : Bool)
    (gen : String → String → String → Except String String)
    (req : McpRequest) : HandleOutcome :=
  -- For all non-initialize, non-ping requests, ensure a session exists:
  -- look up `params.sessionId || 'default'` and auto-create when absent,
  -- then overwrite params.sessionId with the session's id.
  let ensured :=
    if req.method ≠ "initialize" ∧ req.method ≠ "ping" then
      let sessionId :=
        match req.paramsSessionId with
        | none => "default"
        | some sid => if sid = "" then "default" else sid
      match getSession st.svc sessionId with
      | some session => (some session.id, st.svc)
      | none =>
        let r := createSession st.svc now
        (some r.1.id, r.2)
    else (req.paramsSessionId, st.svc)
  let ctxSessionId := ensured.1
  let st0 := { st with svc := ensured.2 }
  let sidStr := ctxSessionId.getD "undefined"
  if req.method = "initialize" then
    let r := createSession st0.svc now
    let session := r.1
    let svc1 := r.2
    let caps := req.paramsCapabilitySampling
    -- getPlayerState is (mistakenly) given the session id, not the
    -- player id, so it always misses and the event payload is undefined.
    let playerState := getPlayerState svc1 session.id
    { result := .ok (some (req.id, .initResult
        { protocolVersion := "2025-03-26"
          toolsListChanged := true
          promptsListChanged := true
          resourcesListChanged := true
          resourcesSubscribe := true
          serverName := "MUD MCP Server"
          serverVersion := "1.0.0"
          serverDescription := "A text-based dungeon adventure game"
          sessionId := session.id
          instructions := "This MUD server provides tools for exploring a text-based adventure. Use \x27look\x27 to examine your surroundings, \x27move\x27 to navigate between rooms, and \x27pick_up\x27 to collect items." }))
      state := { st0 with
        svc := svc1
        clientSamplingCapability := caps
        samplingAvailable := if caps then true else st0.samplingAvailable }
      events := [GameEvent.toolsChanged (playerState.map (fun p => p.player_id))] }
  else if req.method = "tools/list" then
    let session := ctxSessionId.bind (fun sid => getSession st0.svc sid)
    let sessionPlayerId := session.map (fun s => s.playerId)
    let availableTools := getAvailableTools st0.svc st0.samplingAvailable sessionPlayerId
    { result := .ok (some (req.id, .toolsList (availableTools.map toWireToolDirect)))
      state := st0 }
  else if req.method = "tools/call" then
    -- `${name}` of an absent name renders as the string "undefined".
    let name := req.paramsName.getD "undefined"
    match ctxSessionId.bind (fun sid => getSession st0.svc sid) with
    | none =>
      { result := .error "Cannot read properties of undefined (reading \x27playerId\x27)"
        state := st0 }
    | some session =>
      match getPlayerState st0.svc session.playerId with
      | none =>
        { result := .error ("Session \x27" ++ sidStr ++ "\x27 not found"), state := st0 }
      | some playerState =>
        let availableTools :=
          getAvailableTools st0.svc st0.samplingAvailable (some playerState.player_id)
        match availableTools.find? (fun tool => tool.name = name) with
        | none =>
          { result := .error ("Tool \x27" ++ name ++ "\x27 not found"), state := st0 }
        | some _ =>
          let r := executeTool st0.svc st0.samplingAvailable win gen name
            req.paramsArgs ctxSessionId
          { result := .ok (some (req.id, .toolCall r.1))
            state := { st0 with svc := r.2.1 }
            events := r.2.2 }
  else if req.method = "prompts/list" then
    let session := ctxSessionId.bind (fun sid => getSession st0.svc sid)
    match session.bind (fun s => getPlayerState st0.svc s.playerId) with
    | none =>
      { result := .error ("Session \x27" ++ sidStr ++ "\x27 not found"), state := st0 }
    | some playerState =>
      let availablePrompts := getAvailablePrompts st0.svc (some playerState.player_id)
      { result := .ok (some (req.id, .promptsList availablePrompts)), state := st0 }
  else if req.method = "prompts/get" then
    let name := req.paramsName.getD "undefined"
    let result := executePrompt st0.svc name req.paramsDetailLevel ctxSessionId
    { result := .ok (some (req.id, .promptGet result)), state := st0 }
  else if req.method = "resources/list" then
    let rs := st0.resources.map (fun p =>
      let d := p.2.definition
      { uri := d.uriPattern
        name :=
          match d.name with
          | some n => if n = "" then d.uriPattern else some n
          | none => d.uriPattern
        description := d.description.getD "" : WireResource })
    { result := .ok (some (req.id, .resourcesList rs)), state := st0 }
  else if req.method = "resources/read" then
    match req.paramsUri with
    | none =>
      { result := .error "Resource \x27undefined\x27 not found", state := st0 }
    | some uri =>
      match mapGet st0.resources uri with
      | none =>
        { result := .error ("Resource \x27" ++ uri ++ "\x27 not found"), state := st0 }
      | some entry =>
        match entry.run req.paramsResourceParameters with
        | .error e => { result := .error e, state := st0 }
        | .ok r => { result := .ok (some (req.id, .resourceRead r)), state := st0 }
  else if req.method = "ping" then
    { result := .ok (some (req.id, .pingResult)), state := st0 }
  else if req.method = "notifications/initialized" then
    let r := publishInitialLists st0.svc st0.hasTransport st0.samplingAvailable now
    { result := .ok none, state := { st0 with svc := r.1 }, sent := r.2 }
  else if req.method = "sampling/createMessage" then
    { result := .error "Servers send sampling requests, they do not receive them"
      state := st0 }
  else
    { result := .error ("Method \x27" ++ req.method ++ "\x27 not found"), state := st0 }

/-- An outgoing response envelope as built in index.ts: either the
response returned by `handleRequest` or the error response assembled in
the rejection handler. -/
inductive OutMessage where
  | response (id : Nat) (result : McpResult)
  | errorResponse (id : Nat) (code : Int) (message : String)
deriving Repr, DecidableEq

/-- index.ts `onMessage` (for request messages): force
`params.sessionId = 'session_1234'`, run the dispatcher, send the
response when there is one and convert a rejection into a code `-32000`
error response carrying the original request id.  Also returns the
notifications produced during the call (the listener-driven list_changed
messages computed against the post-call state, plus any direct sends). -/
def onMessage (st : McpServerState) (now : Nat) (win : Bool)
    (gen : String → String → String → Except String String)
    (req : McpRequest) : Option OutMessage × McpServerState × List NotificationMessage :=
  let req' := { req with paramsSessionId := some "session_1234" }
  let o := handleRequest st now win gen req'
  let listenerSent :=
    notificationsForEvents o.state.hasTransport o.state.svc o.state.samplingAvailable o.events
  let sent := o.sent ++ listenerSent
  match o.result with
  | .error msg => (some (.errorResponse req.id (-32000) msg), o.state, sent)
  | .ok none => (none, o.state, sent)
  | .ok (some (rid, res)) => (some (.response rid res), o.state, sent)

/-- The dispatch loop: each incoming request is processed in turn, the
state threading through; one (possibly absent) outgoing message per
request. -/
def processMessages (st : McpServerState) (now : Nat) (win : Bool)
    (gen : String → String → String → Except String String) :
    List McpRequest → List (Option OutMessage) × McpServerState
  | [] => ([], st)
  | req :: rest =>
    let r := onMessage st now win gen req
    let tail := processMessages r.2.1 now win gen rest
    (r.1 :: tail.1, tail.2)

/-- The result built by the take handler's `There is no … here to take`
branch for a given room and requested item name. -/
def takeNoItemResult (room : Room) (item : String) : ToolResult :=
  { content := textContent
      ("There is no " ++ item ++ " here to take. "
        ++ (if room.items.length > 0 then
              "Available items in this room: "
                ++ String.intercalate ", " (room.items.map itemDisplayName)
                ++ ". Looking for: " ++ item
            else "No items in this room. Looking for: " ++ item))
    isError := some false }

/-- A content-generator oracle for runs without a sampling-capable
client: every generation attempt fails. -/
def genUnavailable : String → String → String → Except String String :=
  fun _ _ _ => Except.error "unavailable"

/-- The state after the very first `createSession` (at time 1): one
player, `player_1`, at the entrance. -/
def sAfterCreate : StateService := (createSession initialStateService 1).2

/-- The state after `player_1` then moves north into the hallway. -/
def sAtHallway : StateService := (movePlayer sAfterCreate "player_1" "north").2.1

/-- The state after additionally removing the torch from the entrance:
the entrance is now item-free while `player_1` stands in the hallway. -/
def sEntranceEmpty : StateService := (removeItemFromRoom sAtHallway "entrance" "torch").2

/-- Two sessions (players 1 and 2), both moved into the chamber, then
`player_1` wins a battle against the goblin: the chamber is now
monster-free but only `player_1`'s flag was reset. -/
def c10State : StateService :=
  (battle (updatePlayerRoom (updatePlayerRoom
    (createSession (createSession initialStateService 1).2 2).2
    "player_1" "chamber").2.1 "player_2" "chamber").2.1 "player_1" true).2.1

/-- A server whose state service has `player_1` in the hallway (a room
with no north exit). -/
def stHallwayServer : McpServerState := { svc := sAtHallway }

/-- A `tools/call` request for `move` with `direction: "north"`. -/
def reqMoveNorth : McpRequest :=
  { id := 9, method := "tools/call", paramsSessionId := some "session_1234",
    paramsName := some "move", paramsArgs := { direction := some "north" } }

/-- A server whose state service is the post-`createSession` state. -/
def stEntranceServer : McpServerState := { svc := sAfterCreate }

/-- A `tools/call` request for the globally registered `battle` tool. -/
def reqCallBattle : McpRequest :=
  { id := 3, method := "tools/call", paramsSessionId := some "session_1234",
    paramsName := some "battle" }

/-- A request whose method is in no entry of the dispatcher's method
table. -/
def reqUnknownMethod : McpRequest := { id := 7, method := "bogus/unknown" }

/-- One step of the game state: a call to any state-service mutator, or
the execution of a tool handler. -/
inductive Step : StateService → StateService → Prop where
  | create (s : StateService) (now : Nat) : Step s (createSession s now).2
  | move (s : StateService) (playerId direction : String) :
      Step s (movePlayer s playerId direction).2.1
  | updateRoom (s : StateService) (playerId roomId : String) :
      Step s (updatePlayerRoom s playerId roomId).2.1
  | addItem (s : StateService) (playerId itemId : String) :
      Step s (addItemToInventory s playerId itemId).2.1
  | quest (s : StateService) (playerId : String) :
      Step s (acceptQuest s playerId).2.1
  | battleStep (s : StateService) (playerId : String) (win : Bool) :
      Step s (battle s playerId win).2.1
  | removeItem (s : StateService) (roomId itemId : String) :
      Step s (removeItemFromRoom s roomId itemId).2
  | toolExec (s : StateService) (sampling win : Bool)
      (gen : String → String → String → Except String String)
      (name : String) (params : ToolParams) (ctx : Option String) :
      Step s (executeTool s sampling win gen name params ctx).2.1

/-- Reachability from the process-start state through any interleaving of
mutators and tool executions (across all players of the shared world). -/
inductive Reachable : StateService → Prop where
  | init : Reachable initialStateService
  | step {s s' : StateService} : Reachable s → Step s s' → Reachable s'

/-- Auxiliary: a found binding is a member of the association list. -/
lemma mapGet_eq_some_mem {α : Type} {m : List (String × α)} {k : String} {v : α}
    (h : mapGet m k = some v) : (k, v) ∈ m := by
  unfold mapGet at h
  cases hf : m.find? (fun p => p.1 = k) with
  | none => rw [hf] at h; simp at h
  | some p =>
    rw [hf] at h
    have hv : p.2 = v := by simpa using h
    have hm := List.mem_of_find?_eq_some hf
    have hk : p.1 = k := by simpa using List.find?_some hf
    have hpv : p = (k, v) := by
      cases p
      simp only at hk hv
      subst hk; subst hv; rfl
    exact hpv ▸ hm

/-- Auxiliary: a key with a matching member has a defined lookup. -/
lemma mapGet_isSome_of_mem {α : Type} {m : List (String × α)} {k : String} {v : α}
    (h : (k, v) ∈ m) : (mapGet m k).isSome := by
  unfold mapGet
  have : (m.find? (fun p => p.1 = k)).isSome := by
    rw [List.find?_isSome]
    exact ⟨(k, v), h, by simp⟩
  cases hf : m.find? (fun p => p.1 = k) with
  | none => rw [hf] at this; simp at this
  | some p => simp

/-- Auxiliary: membership in an updated association list. -/
lemma mem_mapSet_elim {α : Type} {m : List (String × α)} {k : String} {v : α}
    {q : String × α} (h : q ∈ mapSet m k v) : q = (k, v) ∨ q ∈ m := by
  unfold mapSet at h
  split at h
  · obtain ⟨p, hp, hq⟩ := List.mem_map.mp h
    by_cases hpk : p.1 = k
    · left; rw [if_pos hpk] at hq; exact hq.symm
    · right; rw [if_neg hpk] at hq; exact hq ▸ hp
  · rcases List.mem_append.mp h with h | h
    · right; exact h
    · left; simpa using h

/-- Auxiliary: `find?` over the replacement map when the searched key
differs from the replaced one. -/
lemma find?_map_replace_ne {α : Type} (m : List (String × α)) (k : String) (v : α)
    {k' : String} (hne : k' ≠ k) :
    (m.map (fun p => if p.1 = k then (k, v) else p)).find? (fun p => p.1 = k') =
      m.find? (fun p => p.1 = k') := by
  induction m with
  | nil => rfl
  | cons q m ih =>
    simp only [List.map_cons, List.find?]
    by_cases hqk : q.1 = k
    · simp only [if_pos hqk]
      have h1 : (decide ((k, v).1 = k')) = false :=
        decide_eq_false (fun h => hne h.symm)
      have h2 : (decide (q.1 = k')) = false :=
        decide_eq_false (by rw [hqk]; exact fun h => hne h.symm)
      simp only [h1, h2]
      exact ih
    · simp only [if_neg hqk]
      cases hq : decide (q.1 = k') with
      | false => simp only [hq]; exact ih
      | true => simp only [hq]

/-- Auxiliary: `find?` over the replacement map at the replaced key. -/
lemma find?_map_replace_eq {α : Type} (m : List (String × α)) (k : String) (v : α)
    (hany : m.any (fun p => p.1 = k)) :
    (m.map (fun p => if p.1 = k then (k, v) else p)).find? (fun p => p.1 = k) =
      some (k, v) := by
  induction m with
  | nil => simp at hany
  | cons q m ih =>
    simp only [List.map_cons, List.find?]
    by_cases hqk : q.1 = k
    · simp only [if_pos hqk]; simp
    · simp only [if_neg hqk]
      have hd : (decide (q.1 = k)) = false := decide_eq_false hqk
      simp only [hd]
      apply ih
      simp only [List.any_cons, hd, Bool.false_or] at hany
      exact hany

/-- Auxiliary: `find?` distributes over append, first list first. -/
lemma find?_append_first {α : Type} (l₁ l₂ : List α) (p : α → Bool) :
    (l₁ ++ l₂).find? p =
      match l₁.find? p with
      | some x => some x
      | none => l₂.find? p := by
  induction l₁ with
  | nil => simp
  | cons a l₁ ih =>
    simp only [List.cons_append, List.find?]
    cases hp : p a with
    | true => simp
    | false => simpa using ih

/-- Lookup after update: the updated key reads the new value, every other
key is unaffected. -/
lemma mapGet_mapSet {α : Type} (m : List (String × α)) (k : String) (v : α)
    (k' : String) :
    mapGet (mapSet m k v) k' = if k' = k then some v else mapGet m k' := by
  unfold mapSet
  split
  case isTrue hany =>
    by_cases hkk : k' = k
    · subst hkk
      unfold mapGet
      rw [find?_map_replace_eq m k' v hany]
      simp
    · unfold mapGet
      rw [find?_map_replace_ne m k v hkk, if_neg hkk]
  case isFalse hany =>
    unfold mapGet
    rw [find?_append_first]
    have hnone : m.find? (fun p => p.1 = k) = none := by
      rw [List.find?_eq_none]
      intro x hx
      simp only [decide_eq_true_eq]
      intro hxk
      exact hany (List.any_eq_true.mpr ⟨x, hx, by simpa using hxk⟩)
    by_cases hkk : k' = k
    · subst hkk
      rw [hnone]
      simp [mapGet, hnone]
    · rw [if_neg hkk]
      cases hf : m.find? (fun p => p.1 = k') with
      | some x => simp
      | none =>
        have : (decide (k = k')) = false := by
          simp only [decide_eq_false_iff_not]
          exact fun h => hkk h.symm
        simp [List.find?, this]

/-- Per-room invariant of every reachable world: at most one monster per
room, no monsters at the entrance, and no room item is a key of the item
catalog. -/
def RoomOk (p : String × Room) : Prop :=
  p.2.monsters.length ≤ 1
  ∧ (p.1 = "entrance" → p.2.monsters = [])
  ∧ ∀ i ∈ p.2.items, mapGet items i = none

/-- The room invariant over the whole world. -/
def RoomsOk (w : GameWorld) : Prop := ∀ p ∈ w.rooms, RoomOk p

/-- The one-sided flag invariant: a player whose `monsterPresent` flag is
`false` really is in a monster-free room.  (The converse is not
invariant: another player's battle can empty the room while this
player's flag stays `true`.) -/
def PlayersOk (s : StateService) : Prop :=
  ∀ q ∈ s.players, q.2.monsterPresent = false →
    ∀ r, mapGet s.world.rooms q.2.room = some r → r.monsters = []

/-- The combined state invariant. -/
def Inv (s : StateService) : Prop := RoomsOk s.world ∧ PlayersOk s

/-- The initial state satisfies the invariant. -/
lemma inv_initial : Inv initialStateService := by
  constructor
  · intro p hp
    fin_cases hp <;> exact ⟨by decide, by decide, by decide⟩
  · intro q hq
    simp [initialStateService] at hq

/-- Updating one room preserves the world invariant when the new room
itself satisfies it. -/
lemma roomsOk_set {w : GameWorld} {rid : String} {room' : Room}
    (hw : RoomsOk w) (hok : RoomOk (rid, room')) :
    ∀ p ∈ mapSet w.rooms rid room', RoomOk p := by
  intro p hp
  rcases mem_mapSet_elim hp with h | h
  · exact h ▸ hok
  · exact hw p h

/-- `createSession` preserves the invariant. -/
lemma inv_createSession (s : StateService) (now : Nat) (h : Inv s) :
    Inv (createSession s now).2 := by
  refine ⟨h.1, ?_⟩
  intro q hq hflag r hr
  rcases mem_mapSet_elim hq with hnew | hmem
  · subst hnew
    have hm := mapGet_eq_some_mem hr
    exact (h.1 _ hm).2.1 rfl
  · exact h.2 q hmem hflag r hr

/-- `movePlayer` preserves the invariant. -/
lemma inv_movePlayer (s : StateService) (pid dir : String) (h : Inv s) :
    Inv (movePlayer s pid dir).2.1 := by
  unfold movePlayer
  cases hps : getPlayerState s pid with
  | none => simp only [hps]; exact h
  | some ps =>
    simp only [hps]
    cases hcur : mapGet s.world.rooms ps.room with
    | none => simp only [hcur]; exact h
    | some currentRoom =>
      simp only [hcur]
      cases hex : mapGet currentRoom.exits dir with
      | none => simp only [hex]; exact h
      | some nextRoomId =>
        simp only [hex]
        cases hnext : mapGet s.world.rooms nextRoomId with
        | none => simp only [hnext]; exact h
        | some nextRoom =>
          simp only [hnext]
          refine ⟨h.1, ?_⟩
          intro q hq hflag r hr
          rcases mem_mapSet_elim hq with hnew | hmem
          · subst hnew
            simp only at hflag hr
            rw [hnext] at hr
            have hrn : r = nextRoom := (Option.some.inj hr).symm
            subst hrn
            have hlen : r.monsters.length = 0 := by simpa using hflag
            exact List.length_eq_zero.mp hlen
          · exact h.2 q hmem hflag r hr

/-- `updatePlayerRoom` preserves the invariant. -/
lemma inv_updatePlayerRoom (s : StateService) (pid roomId : String) (h : Inv s) :
    Inv (updatePlayerRoom s pid roomId).2.1 := by
  unfold updatePlayerRoom
  cases hps : getPlayerState s pid with
  | none => simp only [hps]; exact h
  | some ps =>
    simp only [hps]
    cases htr : mapGet s.world.rooms roomId with
    | none => simp only [htr]; exact h
    | some targetRoom =>
      simp only [htr]
      refine ⟨h.1, ?_⟩
      intro q hq hflag r hr
      rcases mem_mapSet_elim hq with hnew | hmem
      · subst hnew
        simp only at hflag hr
        rw [htr] at hr
        have hrn : r = targetRoom := (Option.some.inj hr).symm
        subst hrn
        have hlen : r.monsters.length = 0 := by simpa using hflag
        exact List.length_eq_zero.mp hlen
      · exact h.2 q hmem hflag r hr

/-- `acceptQuest` preserves the invariant. -/
lemma inv_acceptQuest (s : StateService) (pid : String) (h : Inv s) :
    Inv (acceptQuest s pid).2.1 := by
  unfold acceptQuest
  cases hps : getPlayerState s pid with
  | none => simp only [hps]; exact h
  | some ps =>
    simp only [hps]
    cases hroom : mapGet s.world.rooms ps.room with
    | none => simp only [hroom]; exact h
    | some room =>
      simp only [hroom]
      by_cases hcond : ¬ room.hasQuest ∨ ps.hasQuest
      · simp only [if_pos hcond]; exact h
      · simp only [if_neg hcond]
        refine ⟨h.1, ?_⟩
        intro q hq hflag r hr
        rcases mem_mapSet_elim hq with hnew | hmem
        · subst hnew
          simp only at hflag hr
          exact h.2 (pid, ps) (mapGet_eq_some_mem hps) hflag r hr
        · exact h.2 q hmem hflag r hr

/-- `addItemToInventory` preserves the invariant. -/
lemma inv_addItemToInventory (s : StateService) (pid itemId : String) (h : Inv s) :
    Inv (addItemToInventory s pid itemId).2.1 := by
  unfold addItemToInventory
  cases hps : getPlayerState s pid with
  | none => simp only [hps]; exact h
  | some ps =>
    simp only [hps]
    cases hroom : mapGet s.world.rooms ps.room with
    | none => simp only [hroom]; exact h
    | some room =>
      simp only [hroom]
      by_cases hcont : ¬ room.items.contains itemId
      · simp only [if_pos hcont]; exact h
      · simp only [if_neg hcont]
        have hmemroom := mapGet_eq_some_mem hroom
        have hok : RoomOk (ps.room, { room with items := room.items.filter (fun id => id ≠ itemId) }) := by
          obtain ⟨h1, h2, h3⟩ := h.1 _ hmemroom
          exact ⟨h1, h2, fun i hi => h3 i (List.mem_of_mem_filter hi)⟩
        constructor
        · exact fun p hp => roomsOk_set h.1 hok p hp
        · intro q hq hflag r hr
          simp only at hr
          rw [mapGet_mapSet] at hr
          rcases mem_mapSet_elim hq with hnew | hmem
          · subst hnew
            simp only at hflag hr
            split at hr
            · have hr' : r = { room with items := room.items.filter (fun id => id ≠ itemId) } :=
                (Option.some.inj hr).symm
              subst hr'
              exact h.2 (pid, ps) (mapGet_eq_some_mem hps) hflag room hroom
            · exact h.2 (pid, ps) (mapGet_eq_some_mem hps) hflag r hr
          · split at hr
            · rename_i heq
              have hr' : r = { room with items := room.items.filter (fun id => id ≠ itemId) } :=
                (Option.some.inj hr).symm
              subst hr'
              exact h.2 q hmem hflag room (by rw [heq]; exact hroom)
            · exact h.2 q hmem hflag r hr

/-- `removeItemFromRoom` preserves the invariant. -/
lemma inv_removeItemFromRoom (s : StateService) (roomId itemId : String) (h : Inv s) :
    Inv (removeItemFromRoom s roomId itemId).2 := by
  unfold removeItemFromRoom
  cases hroom : mapGet s.world.rooms roomId with
  | none => simp only [hroom]; exact h
  | some room =>
    simp only [hroom]
    by_cases hcont : ¬ room.items.contains itemId
    · simp only [if_pos hcont]; exact h
    · simp only [if_neg hcont]
      have hmemroom := mapGet_eq_some_mem hroom
      have hok : RoomOk (roomId, { room with items := room.items.filter (fun id => id ≠ itemId) }) := by
        obtain ⟨h1, h2, h3⟩ := h.1 _ hmemroom
        exact ⟨h1, h2, fun i hi => h3 i (List.mem_of_mem_filter hi)⟩
      constructor
      · exact fun p hp => roomsOk_set h.1 hok p hp
      · intro q hq hflag r hr
        simp only at hr
        rw [mapGet_mapSet] at hr
        split at hr
        · rename_i heq
          have hr' : r = { room with items := room.items.filter (fun id => id ≠ itemId) } :=
            (Option.some.inj hr).symm
          subst hr'
          exact h.2 q hq hflag room (by rw [heq]; exact hroom)
        · exact h.2 q hq hflag r hr

/-- `battle` preserves the invariant: a won battle empties the (at most
singleton) monster list of the player's room. -/
lemma inv_battle (s : StateService) (pid : String) (win : Bool) (h : Inv s) :
    Inv (battle s pid win).2.1 := by
  unfold battle
  cases hps : getPlayerState s pid with
  | none => simp only [hps]; exact h
  | some ps =>
    simp only [hps]
    by_cases hpres : ¬ ps.monsterPresent
    · simp only [if_pos hpres]; exact h
    · simp only [if_neg hpres]
      cases hroom : mapGet s.world.rooms ps.room with
      | none => simp only [hroom]; exact h
      | some room =>
        simp only [hroom]
        cases hmons : room.monsters with
        | nil => simp only [hmons]; exact h
        | cons monsterName rest =>
          simp only [hmons]
          cases win with
          | false => simp only [Bool.false_eq_true, if_false]; exact h
          | true =>
            simp only [if_true]
            have hmemroom := mapGet_eq_some_mem hroom
            obtain ⟨h1, h2, h3⟩ := h.1 _ hmemroom
            have hrest : rest = [] := by
              rw [hmons] at h1
              simp only [List.length_cons] at h1
              exact List.length_eq_zero.mp (Nat.le_zero.mp (Nat.le_of_succ_le_succ h1))
            have hfilter : (monsterName :: rest).filter (fun m => m ≠ monsterName) = [] := by
              rw [hrest]
              simp
            have hok : RoomOk (ps.room, { room with monsters := (monsterName :: rest).filter (fun m => m ≠ monsterName) }) := by
              refine ⟨?_, ?_, h3⟩
              · rw [hfilter]; simp
              · intro _; exact hfilter
            constructor
            · exact fun p hp => roomsOk_set h.1 hok p hp
            · intro q hq hflag r hr
              simp only at hr
              rw [mapGet_mapSet] at hr
              split at hr
              · have hr' : r = { room with monsters := (monsterName :: rest).filter (fun m => m ≠ monsterName) } :=
                  (Option.some.inj hr).symm
                subst hr'
                exact hfilter
              · rename_i heq
                rcases mem_mapSet_elim hq with hnew | hmem
                · subst hnew
                  exact absurd rfl heq
                · exact h.2 q hmem hflag r hr

/-- The move handler preserves the invariant. -/
lemma inv_moveHandler (s : StateService) (ctx : Option String) (dir? : Option String)
    (h : Inv s) : Inv (moveHandler s ctx dir?).2.1 := by
  unfold moveHandler
  cases ctx with
  | none => exact h
  | some sid =>
    cases hsess : getSession s sid with
    | none => simp only [hsess]; exact h
    | some session =>
      simp only [hsess]
      cases hps : getPlayerState s session.playerId with
      | none => simp only [hps]; exact h
      | some ps =>
        simp only [hps]
        cases hcur : mapGet s.world.rooms ps.room with
        | none => simp only [hcur]; exact h
        | some currentRoom =>
          simp only [hcur]
          cases dir? with
          | none => exact h
          | some dir =>
            cases hex : mapGet currentRoom.exits (strToLower dir) with
            | none => simp only [hex]; exact h
            | some targetRoomId =>
              simp only [hex]
              cases htr : mapGet s.world.rooms targetRoomId with
              | none => simp only [htr]; exact h
              | some targetRoom =>
                simp only [htr]
                exact inv_updatePlayerRoom s session.playerId targetRoomId h

/-- The take handler, as wrapped by `executeTool`, preserves the
invariant. -/
lemma inv_takeHandlerState (s : StateService) (ctx item? : Option String)
    (h : Inv s) :
    Inv (match takeHandler s ctx item? with
         | .ok out => out
         | .error msg => (errorResult ("Error executing tool \x27take\x27: " ++ msg), s, [])).2.1 := by
  unfold takeHandler
  cases ctx with
  | none => exact h
  | some sid =>
    cases hsess : getSession s sid with
    | none => simp only [hsess]; exact h
    | some session =>
      simp only [hsess]
      cases hps : getPlayerState s session.playerId with
      | none => simp only [hps]; exact h
      | some ps =>
        simp only [hps]
        cases hroom : mapGet s.world.rooms ps.room with
        | none => simp only [hroom]; exact h
        | some room =>
          simp only [hroom]
          cases item? with
          | none => exact h
          | some item =>
            cases hfind : items.find? (fun p => strToLower p.2.name = strToLower item) with
            | none => simp only [hfind]; exact h
            | some found =>
              cases found with
              | mk itemId itemData =>
                simp only [hfind]
                by_cases hcont : ¬ room.items.contains itemId
                · simp only [if_pos hcont]
                  exact h
                · simp only [if_neg hcont]
                  exact inv_removeItemFromRoom _ _ _
                    (inv_addItemToInventory _ _ _ h)

/-- The battle handler, as wrapped by `executeTool`, preserves the
invariant. -/
lemma inv_battleHandlerState (s : StateService) (ctx monster? : Option String)
    (win : Bool) (h : Inv s) :
    Inv (match battleHandler s ctx monster? win with
         | .ok out => out
         | .error msg => (errorResult ("Error executing tool \x27battle\x27: " ++ msg), s, [])).2.1 := by
  unfold battleHandler
  cases ctx with
  | none => exact h
  | some sid =>
    cases hsess : getSession s sid with
    | none => simp only [hsess]; exact h
    | some session =>
      simp only [hsess]
      cases hps : getPlayerState s session.playerId with
      | none => simp only [hps]; exact h
      | some ps =>
        simp only [hps]
        cases hroom : mapGet s.world.rooms ps.room with
        | none => simp only [hroom]; exact h
        | some room =>
          simp only [hroom]
          cases monster? with
          | none => exact h
          | some monster =>
            cases hfind : monsters.find? (fun p => strToLower p.2.name = strToLower monster) with
            | none => simp only [hfind]; exact h
            | some found =>
              cases found with
              | mk monsterId monsterData =>
                simp only [hfind]
                by_cases hcont : ¬ room.monsters.contains monsterId
                · simp only [if_pos hcont]
                  exact h
                · simp only [if_neg hcont]
                  cases win with
                  | false => simp only [Bool.false_eq_true, if_false]; exact h
                  | true =>
                    simp only [if_true]
                    apply inv_updatePlayerRoom
                    -- the intermediate state: the player's room with its
                    -- monster list filtered in place
                    have hmemroom := mapGet_eq_some_mem hroom
                    obtain ⟨h1, h2, h3⟩ := h.1 _ hmemroom
                    have hok : RoomOk (ps.room, { room with monsters := room.monsters.filter (fun id => id ≠ monsterId) }) := by
                      refine ⟨?_, ?_, h3⟩
                      · exact le_trans (List.length_filter_le _ _) h1
                      · intro hent
                        rw [h2 hent]
                        rfl
                    constructor
                    · exact fun p hp => roomsOk_set h.1 hok p hp
                    · intro q hq hflag r hr
                      simp only at hr
                      rw [mapGet_mapSet] at hr
                      split at hr
                      · rename_i heq
                        have hr' : r = { room with monsters := room.monsters.filter (fun id => id ≠ monsterId) } :=
                          (Option.some.inj hr).symm
                        subst hr'
                        have hempty := h.2 q hq hflag room (by rw [heq]; exact hroom)
                        simp only [hempty]
                        rfl
                      · exact h.2 q hq hflag r hr

/-- Tool execution preserves the invariant. -/
lemma inv_executeTool (s : StateService) (sampling win : Bool)
    (gen : String → String → String → Except String String)
    (name : String) (params : ToolParams) (ctx : Option String) (h : Inv s) :
    Inv (executeTool s sampling win gen name params ctx).2.1 := by
  unfold executeTool
  split
  · exact h
  · exact inv_moveHandler s ctx params.direction h
  · exact h
  · exact inv_takeHandlerState s ctx params.item h
  · exact inv_battleHandlerState s ctx params.monster win h
  · exact h
  · exact h

/-- Every step of the system preserves the invariant. -/
lemma inv_step {s s' : StateService} (h : Inv s) (hs : Step s s') : Inv s' := by
  cases hs with
  | create now => exact inv_createSession _ now h
  | move pid dir => exact inv_movePlayer _ pid dir h
  | updateRoom pid roomId => exact inv_updatePlayerRoom _ pid roomId h
  | addItem pid itemId => exact inv_addItemToInventory _ pid itemId h
  | quest pid => exact inv_acceptQuest _ pid h
  | battleStep pid win => exact inv_battle _ pid win h
  | removeItem roomId itemId => exact inv_removeItemFromRoom _ roomId itemId h
  | toolExec sampling win gen name params ctx =>
    exact inv_executeTool _ sampling win gen name params ctx h

/-- Every reachable state satisfies the invariant. -/
lemma inv_reachable {s : StateService} (h : Reachable s) : Inv s := by
  induction h with
  | init => exact inv_initial
  | step _ hs ih => exact inv_step ih hs

/-- The dispatch loop emits exactly one (possibly absent) outgoing slot
per incoming request: it never stops early. -/
lemma processMessages_length (st : McpServerState) (now : Nat) (win : Bool)
    (gen : String → String → String → Except String String)
    (msgs : List McpRequest) :
    ((processMessages st now win gen msgs).1).length = msgs.length := by
  induction msgs generalizing st with
  | nil => rfl
  | cons req rest ih =>
    unfold processMessages
    simp only [List.length_cons]
    rw [ih]

/-- C4: the claim that `createSession` stores the session under a newly
generated id — so that two successive calls return distinct session ids
and never replace a previously created session — fails on the code: the
session id is the hard-coded string `session_1234`, so both calls return
the same id and the second `Map.set` overwrites the first session (the
sessions map stays at one entry). -/
theorem c4_fixed_session_id_overwrites_previous_session :
    ((createSession initialStateService 1).1).id = "session_1234"
    ∧ ((createSession (createSession initialStateService 1).2 2).1).id = "session_1234"
    ∧ getSession (createSession (createSession initialStateService 1).2 2).2 "session_1234"
        = some { id := "session_1234", playerId := "player_2", lastActive := 2 }
    ∧ ((createSession (createSession initialStateService 1).2 2).2).sessions.length = 1 :=
  ⟨rfl, rfl, rfl, rfl⟩

/-- C7: the failing input evaluated on the code.  From the reachable
state where `player_1` is in the hallway and the entrance has been
emptied of items, `movePlayer "south"` succeeds and changes the visible
tool list (the take tool disappears), yet emits no event at all: the
event mapping has a false negative. -/
theorem c7_move_changes_tool_list_without_event :
    Reachable sEntranceEmpty
    ∧ (movePlayer sEntranceEmpty "player_1" "south").1 = true
    ∧ (movePlayer sEntranceEmpty "player_1" "south").2.2 = []
    ∧ getAvailableTools sEntranceEmpty false (some "player_1")
        ≠ getAvailableTools (movePlayer sEntranceEmpty "player_1" "south").2.1 false
            (some "player_1") :=
  ⟨Reachable.step
      (Reachable.step
        (Reachable.step Reachable.init (Step.create initialStateService 1))
        (Step.move sAfterCreate "player_1" "north"))
      (Step.removeItem sAtHallway "entrance" "torch"),
   rfl, rfl, by decide⟩

/-- C10 counterexample: a state reachable by two `createSession`s, two
`updatePlayerRoom`s and a won `battle` in which `player_2`'s
`monsterPresent` flag is still `true` although the shared chamber's
monster list is empty — the flag does not equal the room's monster
presence for every player. -/
theorem c10_counterexample_stale_flag_for_second_player :
    Reachable c10State
    ∧ (getPlayerState c10State "player_2").map (fun p => p.monsterPresent) = some true
    ∧ (mapGet c10State.world.rooms "chamber").map (fun r => r.monsters) = some []
    ∧ (getPlayerState c10State "player_2").map (fun p => p.room) = some "chamber" :=
  ⟨Reachable.step
      (Reachable.step
        (Reachable.step
          (Reachable.step
            (Reachable.step Reachable.init (Step.create initialStateService 1))
            (Step.create (createSession initialStateService 1).2 2))
          (Step.updateRoom (createSession (createSession initialStateService 1).2 2).2
            "player_1" "chamber"))
        (Step.updateRoom (updatePlayerRoom
            (createSession (createSession initialStateService 1).2 2).2
            "player_1" "chamber").2.1 "player_2" "chamber"))
      (Step.battleStep (updatePlayerRoom (updatePlayerRoom
          (createSession (createSession initialStateService 1).2 2).2
          "player_1" "chamber").2.1 "player_2" "chamber").2.1 "player_1" true),
   rfl, rfl, rfl⟩

/-- C10 amended: over every reachable state the flag invariant holds in
one direction only — whenever a player's `monsterPresent` flag is
`false`, that player's current room really has no monsters.  (A `true`
flag can be stale, as the counterexample shows.) -/
theorem c10_amended_false_flag_means_no_monsters (s : StateService)
    (h : Reachable s) (pid : String) (ps : PlayerState)
    (hps : getPlayerState s pid = some ps) (hflag : ps.monsterPresent = false)
    (r : Room) (hr : mapGet s.world.rooms ps.room = some r) : r.monsters = [] :=
  (inv_reachable h).2 (pid, ps) (mapGet_eq_some_mem hps) hflag r hr

/-- C10 amended, witness: after the counterexample run, the acting
player `player_1` has a `false` flag and indeed stands in a monster-free
chamber. -/
theorem c10_amended_witness :
    getPlayerState c10State "player_1" =
      some { player_id := "player_1", room := "chamber", inventory := [],
             hasQuest := false, monsterPresent := false }
    ∧ ({ id := "chamber"
         name := "Ancient Chamber"
         description := "You stand in a vast chamber with a high ceiling. Pillars carved with runes support the structure."
         exits := [("west", "hallway"), ("north", "treasure_room")]
         items := ["potion"]
         monsters := []
         hasQuest := false : Room }).monsters = [] :=
  ⟨rfl,
   c10_amended_false_flag_means_no_monsters c10State
     (Reachable.step
       (Reachable.step
         (Reachable.step
           (Reachable.step
             (Reachable.step Reachable.init (Step.create initialStateService 1))
             (Step.create (createSession initialStateService 1).2 2))
           (Step.updateRoom (createSession (createSession initialStateService 1).2 2).2
             "player_1" "chamber"))
         (Step.updateRoom (updatePlayerRoom
             (createSession (createSession initialStateService 1).2 2).2
             "player_1" "chamber").2.1 "player_2" "chamber"))
       (Step.battleStep (updatePlayerRoom (updatePlayerRoom
           (createSession (createSession initialStateService 1).2 2).2
           "player_1" "chamber").2.1 "player_2" "chamber").2.1 "player_1" true))
     "player_1"
     { player_id := "player_1", room := "chamber", inventory := [],
       hasQuest := false, monsterPresent := false }
     rfl rfl
     { id := "chamber"
       name := "Ancient Chamber"
       description := "You stand in a vast chamber with a high ceiling. Pillars carved with runes support the structure."
       exits := [("west", "hallway"), ("north", "treasure_room")]
       items := ["potion"]
       monsters := []
       hasQuest := false }
     rfl⟩

/-- C2 counterexample: `tools/call` of `move` with `direction: "north"`
from the hallway (which has no north exit) returns a result whose
`isError` flag is `false` — not an error-flagged result as the claim
states (the rest of the claim holds: it is a result, not a protocol
error, and the state is unchanged). -/
theorem c2_counterexample_result_not_error_flagged :
    (handleRequest stHallwayServer 5 true genUnavailable reqMoveNorth).result =
      Except.ok (some (9, McpResult.toolCall
        { content := textContent "You can\x27t go north from here."
          isError := some false }))
    ∧ (handleRequest stHallwayServer 5 true genUnavailable reqMoveNorth).state.svc
        = stHallwayServer.svc
    ∧ (handleRequest stHallwayServer 5 true genUnavailable reqMoveNorth).events = [] :=
  ⟨rfl, rfl, rfl⟩

/-- C5 counterexample: the tools change notifier sends a notification
that does carry params — the full recomputed tools array — contradicting
the claim that list_changed notifications carry no params and that the
notifier never inspects list contents. -/
theorem c5_counterexample_notification_carries_tools_params :
    notifyToolsChanged true sAfterCreate false (some "player_1") =
      some { method := "notifications/tools/list_changed"
             params := some
               { tools := some [toWireTool lookTool, toWireTool inventoryTool,
                                toWireTool moveTool, toWireTool takeTool]
                 prompts := none } }
    ∧ ((notifyToolsChanged true sAfterCreate false (some "player_1")).bind
        (fun n => n.params)).isSome = true :=
  ⟨rfl, rfl⟩

/-- C5 amended: every emitted list_changed notification is an id-less
notification of the right method, but its params embed the freshly
recomputed list for the player — the tools notification carries the
mapped available tools, the prompts notification the available
prompts. -/
theorem c5_amended_notification_embeds_recomputed_list
    (hasTransport : Bool) (s : StateService) (sampling : Bool)
    (pid : Option String) (ntools nprompts : NotificationMessage)
    (h1 : notifyToolsChanged hasTransport s sampling pid = some ntools)
    (h2 : notifyPromptsChanged hasTransport s pid = some nprompts) :
    ntools.method = "notifications/tools/list_changed"
    ∧ ntools.params = some
        { tools := some ((getAvailableTools s sampling pid).map toWireTool)
          prompts := none }
    ∧ nprompts.method = "notifications/prompts/list_changed"
    ∧ nprompts.params = some
        { tools := none, prompts := some (getAvailablePrompts s pid) } := by
  unfold notifyToolsChanged at h1
  unfold notifyPromptsChanged at h2
  cases hasTransport with
  | false => simp at h1
  | true =>
    simp only [Bool.not_true, Bool.false_eq_true, if_false, ite_false] at h1 h2
    cases hbind : pid.bind (fun pid => getPlayerState s pid) with
    | none => rw [hbind] at h2; cases h2
    | some ps =>
      rw [hbind] at h2
      have hnt := Option.some.inj h1
      have hnp := Option.some.inj h2
      subst hnt
      subst hnp
      exact ⟨rfl, rfl, rfl, rfl⟩

/-- C5 amended, witness: at the post-`createSession` state both
notifications fire for `player_1` and carry the recomputed lists. -/
theorem c5_amended_witness :
    notifyPromptsChanged true sAfterCreate (some "player_1") =
      some { method := "notifications/prompts/list_changed"
             params := some
               { tools := none
                 prompts := some [roomDescriptionPrompt, welcomePrompt, inventoryPromptDef] } }
    ∧ ({ method := "notifications/prompts/list_changed"
         params := some
           { tools := none
             prompts := some [roomDescriptionPrompt, welcomePrompt, inventoryPromptDef] }
         : NotificationMessage }).params
        = some { tools := none
                 prompts := some (getAvailablePrompts sAfterCreate (some "player_1")) } :=
  ⟨rfl,
   (c5_amended_notification_embeds_recomputed_list true sAfterCreate false
      (some "player_1")
      { method := "notifications/tools/list_changed"
        params := some
          { tools := some [toWireTool lookTool, toWireTool inventoryTool,
                           toWireTool moveTool, toWireTool takeTool]
            prompts := none } }
      { method := "notifications/prompts/list_changed"
        params := some
          { tools := none
            prompts := some [roomDescriptionPrompt, welcomePrompt, inventoryPromptDef] } }
      rfl rfl).2.2.2⟩

/-- C9: whatever the player id argument (absent, unknown, or a player in
a possibly invalid room), the available-tools list always starts with
the look and inventory descriptors and in particular is never empty. -/
theorem c9_look_inventory_always_first (s : StateService) (sampling : Bool)
    (playerId : Option String) :
    (getAvailableTools s sampling playerId).take 2 = [lookTool, inventoryTool]
    ∧ getAvailableTools s sampling playerId ≠ [] := by
  unfold getAvailableTools
  cases playerId with
  | none => exact ⟨rfl, by simp⟩
  | some pid =>
    cases hps : getPlayerState s pid with
    | none => simp only [hps]; exact ⟨rfl, by simp⟩
    | some ps =>
      simp only [hps]
      cases hroom : mapGet s.world.rooms ps.room with
      | none => simp only [hroom]; exact ⟨rfl, by simp⟩
      | some room =>
        simp only [hroom]
        exact ⟨rfl, by simp⟩

/-- C1: `tools/call` re-validates the requested name against the
currently computed available-tools list for the session's player: when
no tool of that name is in the list, the dispatcher throws the
`Tool … not found` error — even for globally registered tools. -/
theorem c1_tools_call_fails_when_tool_not_available
    (st : McpServerState) (now : Nat) (win : Bool)
    (gen : String → String → String → Except String String)
    (req : McpRequest) (sid name : String) (session : Session) (ps : PlayerState)
    (hm : req.method = "tools/call")
    (hsid : req.paramsSessionId = some sid) (hsid0 : sid ≠ "")
    (hsess : getSession st.svc sid = some session) (hid : session.id = sid)
    (hname : req.paramsName = some name)
    (hps : getPlayerState st.svc session.playerId = some ps)
    (habsent : ∀ t ∈ getAvailableTools st.svc st.samplingAvailable (some ps.player_id),
        t.name ≠ name) :
    (handleRequest st now win gen req).result =
      Except.error ("Tool \x27" ++ name ++ "\x27 not found") := by
  have hfind : (getAvailableTools st.svc st.samplingAvailable (some ps.player_id)).find?
      (fun tool => tool.name = name) = none := by
    rw [List.find?_eq_none]
    intro t ht
    simpa using habsent t ht
  have hc : (("tools/call" : String) ≠ "initialize" ∧ ("tools/call" : String) ≠ "ping") := by
    decide
  unfold handleRequest
  simp only [hm, hsid, hname, if_neg hsid0, if_pos hc, hsess, hid, hps, hfind,
    Option.getD_some, Option.some_bind, String.reduceEq, reduceIte]

/-- C1 witness: at the post-`createSession` state the player stands in
the monster-free entrance, so the globally registered `battle` tool is
absent from the list and `tools/call battle` fails with the not-found
error. -/
theorem c1_witness :
    (("battle", battleTool) ∈ toolsMap)
    ∧ (∀ t ∈ getAvailableTools sAfterCreate false (some "player_1"), t.name ≠ "battle")
    ∧ (handleRequest stEntranceServer 5 true genUnavailable reqCallBattle).result =
        Except.error ("Tool \x27" ++ "battle" ++ "\x27 not found") :=
  ⟨by decide, by decide,
   c1_tools_call_fails_when_tool_not_available stEntranceServer 5 true genUnavailable
     reqCallBattle "session_1234" "battle"
     { id := "session_1234", playerId := "player_1", lastActive := 1 }
     { player_id := "player_1", room := "entrance", inventory := [],
       hasQuest := false, monsterPresent := false }
     rfl rfl (by decide) rfl rfl rfl rfl (by decide)⟩

/-- C2 amended: `tools/call move` with `direction: "north"` when the
player's current room has exits but no north exit returns a successful
tool result flagged `isError: false` (not an error-flagged result, not a
protocol error) carrying the in-game refusal text, leaves the state
service untouched, and emits no event. -/
theorem c2_amended_move_no_exit_nonerror_result
    (st : McpServerState) (now : Nat) (win : Bool)
    (gen : String → String → String → Except String String)
    (req : McpRequest) (sid : String) (session : Session) (ps : PlayerState) (room : Room)
    (hm : req.method = "tools/call")
    (hname : req.paramsName = some "move")
    (hdir : req.paramsArgs.direction = some "north")
    (hsid : req.paramsSessionId = some sid) (hsid0 : sid ≠ "")
    (hsess : getSession st.svc sid = some session) (hid : session.id = sid)
    (hps : getPlayerState st.svc session.playerId = some ps)
    (hpid : getPlayerState st.svc ps.player_id = some ps)
    (hroom : mapGet st.svc.world.rooms ps.room = some room)
    (hexits : room.exits ≠ [])
    (hnorth : mapGet room.exits "north" = none) :
    (handleRequest st now win gen req).result =
      Except.ok (some (req.id, McpResult.toolCall
        { content := textContent "You can\x27t go north from here."
          isError := some false }))
    ∧ (handleRequest st now win gen req).state.svc = st.svc
    ∧ (handleRequest st now win gen req).events = [] := by
  have hlen : room.exits.length > 0 := List.length_pos.mpr hexits
  have hfindmove : (getAvailableTools st.svc st.samplingAvailable (some ps.player_id)).find?
      (fun tool => tool.name = "move") = some moveTool := by
    unfold getAvailableTools
    simp only [hpid, hroom, if_pos hlen]
    rfl
  have hlow : strToLower "north" = "north" := rfl
  have hc : (("tools/call" : String) ≠ "initialize" ∧ ("tools/call" : String) ≠ "ping") := by
    decide
  refine ⟨?_, ?_, ?_⟩ <;>
    (unfold handleRequest
     simp only [hm, hsid, hname, if_neg hsid0, if_pos hc, hsess, hid, hps, hfindmove,
       Option.getD_some, Option.some_bind, String.reduceEq, reduceIte]
     unfold executeTool moveHandler
     simp only [hdir, hsess, hps, hroom, hlow, hnorth]
     try rfl)

/-- C2 amended, witness: the concrete hallway state and the concrete
`move north` request. -/
theorem c2_amended_witness :
    mapGet ({ id := "hallway"
              name := "Dark Hallway"
              description := "You are in a dark hallway. The walls are lined with ancient tapestries depicting epic battles."
              exits := [("south", "entrance"), ("east", "chamber")]
              items := ["key"]
              monsters := []
              hasQuest := true : Room }).exits "north" = none
    ∧ ((handleRequest stHallwayServer 5 true genUnavailable reqMoveNorth).result =
        Except.ok (some (reqMoveNorth.id, McpResult.toolCall
          { content := textContent "You can\x27t go north from here."
            isError := some false }))
      ∧ (handleRequest stHallwayServer 5 true genUnavailable reqMoveNorth).state.svc
          = stHallwayServer.svc
      ∧ (handleRequest stHallwayServer 5 true genUnavailable reqMoveNorth).events = []) :=
  ⟨rfl,
   c2_amended_move_no_exit_nonerror_result stHallwayServer 5 true genUnavailable
     reqMoveNorth "session_1234"
     { id := "session_1234", playerId := "player_1", lastActive := 1 }
     { player_id := "player_1", room := "hallway", inventory := [],
       hasQuest := false, monsterPresent := false }
     { id := "hallway"
       name := "Dark Hallway"
       description := "You are in a dark hallway. The walls are lined with ancient tapestries depicting epic battles."
       exits := [("south", "entrance"), ("east", "chamber")]
       items := ["key"]
       monsters := []
       hasQuest := true }
     rfl rfl rfl rfl (by decide) rfl rfl rfl rfl rfl (by decide) rfl⟩

/-- C3: for a player with a valid room, the computed tools list contains
each capability exactly when its visibility predicate over the current
state holds — look and inventory always, move iff the room has an exit,
take iff it has an item, battle iff it has a monster.  The list is a
pure function of current state, so there is no stale cache: as soon as a
mutation puts a monster in the room, the same computation includes the
battle tool. -/
theorem c3_tool_visibility_iff (s : StateService) (sampling : Bool) (pid : String)
    (ps : PlayerState) (room : Room)
    (hps : getPlayerState s pid = some ps)
    (hroom : mapGet s.world.rooms ps.room = some room) :
    lookTool ∈ getAvailableTools s sampling (some pid)
    ∧ inventoryTool ∈ getAvailableTools s sampling (some pid)
    ∧ (moveTool ∈ getAvailableTools s sampling (some pid) ↔ room.exits ≠ [])
    ∧ (takeTool ∈ getAvailableTools s sampling (some pid) ↔ room.items ≠ [])
    ∧ (battleTool ∈ getAvailableTools s sampling (some pid) ↔ room.monsters ≠ []) := by
  have d1 : moveTool ≠ lookTool := by decide
  have d2 : moveTool ≠ inventoryTool := by decide
  have d3 : moveTool ≠ takeTool := by decide
  have d4 : moveTool ≠ battleTool := by decide
  have d5 : moveTool ≠ talkTool := by decide
  have d6 : takeTool ≠ lookTool := by decide
  have d7 : takeTool ≠ inventoryTool := by decide
  have d8 : takeTool ≠ moveTool := by decide
  have d9 : takeTool ≠ battleTool := by decide
  have d10 : takeTool ≠ talkTool := by decide
  have d11 : battleTool ≠ lookTool := by decide
  have d12 : battleTool ≠ inventoryTool := by decide
  have d13 : battleTool ≠ moveTool := by decide
  have d14 : battleTool ≠ takeTool := by decide
  have d15 : battleTool ≠ talkTool := by decide
  unfold getAvailableTools
  simp only [hps, hroom]
  rw [show (room.exits ≠ []) ↔ room.exits.length > 0 from List.length_pos.symm,
    show (room.items ≠ []) ↔ room.items.length > 0 from List.length_pos.symm,
    show (room.monsters ≠ []) ↔ room.monsters.length > 0 from List.length_pos.symm]
  by_cases h1 : room.exits.length > 0 <;>
    by_cases h2 : room.items.length > 0 <;>
      by_cases h3 : room.monsters.length > 0 <;>
        cases sampling <;>
          simp [h1, h2, h3, d1, d2, d3, d4, d5, d6, d7, d8, d9, d10, d11, d12, d13,
            d14, d15]

/-- C3 witness: `player_1` at the entrance — exits and items present,
monsters absent — so look, inventory, move, take are in, battle is
out. -/
theorem c3_witness :
    getPlayerState sAfterCreate "player_1" =
      some { player_id := "player_1", room := "entrance", inventory := [],
             hasQuest := false, monsterPresent := false }
    ∧ (lookTool ∈ getAvailableTools sAfterCreate false (some "player_1")
      ∧ inventoryTool ∈ getAvailableTools sAfterCreate false (some "player_1")
      ∧ (moveTool ∈ getAvailableTools sAfterCreate false (some "player_1") ↔
          ({ id := "entrance"
             name := "Dungeon Entrance"
             description := "You are at the entrance of a dark and foreboding dungeon. The stone walls glisten with moisture, and the air smells of earth and decay."
             exits := [("north", "hallway")]
             items := ["torch"]
             monsters := []
             hasQuest := false : Room }).exits ≠ [])
      ∧ (takeTool ∈ getAvailableTools sAfterCreate false (some "player_1") ↔
          ({ id := "entrance"
             name := "Dungeon Entrance"
             description := "You are at the entrance of a dark and foreboding dungeon. The stone walls glisten with moisture, and the air smells of earth and decay."
             exits := [("north", "hallway")]
             items := ["torch"]
             monsters := []
             hasQuest := false : Room }).items ≠ [])
      ∧ (battleTool ∈ getAvailableTools sAfterCreate false (some "player_1") ↔
          ({ id := "entrance"
             name := "Dungeon Entrance"
             description := "You are at the entrance of a dark and foreboding dungeon. The stone walls glisten with moisture, and the air smells of earth and decay."
             exits := [("north", "hallway")]
             items := ["torch"]
             monsters := []
             hasQuest := false : Room }).monsters ≠ [])) :=
  ⟨rfl,
   c3_tool_visibility_iff sAfterCreate false "player_1"
     { player_id := "player_1", room := "entrance", inventory := [],
       hasQuest := false, monsterPresent := false }
     { id := "entrance"
       name := "Dungeon Entrance"
       description := "You are at the entrance of a dark and foreboding dungeon. The stone walls glisten with moisture, and the air smells of earth and decay."
       exits := [("north", "hallway")]
       items := ["torch"]
       monsters := []
       hasQuest := false }
     rfl rfl⟩

/-- C6: a request whose method is in no entry of the dispatcher's method
table is answered with an error response that echoes the request's id
(never a silent drop), and the dispatch loop keeps producing exactly one
outgoing slot per subsequent request. -/
theorem c6_unknown_method_error_response
    (st : McpServerState) (now : Nat) (win : Bool)
    (gen : String → String → String → Except String String)
    (req : McpRequest) (rest : List McpRequest)
    (h : req.method ∉ knownMethods) :
    (onMessage st now win gen req).1 =
      some (OutMessage.errorResponse req.id (-32000)
        ("Method \x27" ++ req.method ++ "\x27 not found"))
    ∧ ((processMessages (onMessage st now win gen req).2.1 now win gen rest).1).length
        = rest.length := by
  have h1 : req.method ≠ "initialize" := fun e => h (by rw [e]; decide)
  have h2 : req.method ≠ "tools/list" := fun e => h (by rw [e]; decide)
  have h3 : req.method ≠ "tools/call" := fun e => h (by rw [e]; decide)
  have h4 : req.method ≠ "prompts/list" := fun e => h (by rw [e]; decide)
  have h5 : req.method ≠ "prompts/get" := fun e => h (by rw [e]; decide)
  have h6 : req.method ≠ "resources/list" := fun e => h (by rw [e]; decide)
  have h7 : req.method ≠ "resources/read" := fun e => h (by rw [e]; decide)
  have h8 : req.method ≠ "ping" := fun e => h (by rw [e]; decide)
  have h9 : req.method ≠ "notifications/initialized" := fun e => h (by rw [e]; decide)
  have h10 : req.method ≠ "sampling/createMessage" := fun e => h (by rw [e]; decide)
  refine ⟨?_, processMessages_length _ _ _ _ _⟩
  unfold onMessage handleRequest
  simp only [if_neg h1, if_neg h2, if_neg h3, if_neg h4, if_neg h5, if_neg h6,
    if_neg h7, if_neg h8, if_neg h9, if_neg h10, if_pos (And.intro h1 h8)]

/-- C6 witness: the unknown method `bogus/unknown` with id 7 yields the
code `-32000` error response carrying id 7, and a follow-up request is
still processed. -/
theorem c6_witness :
    ("bogus/unknown" ∉ knownMethods)
    ∧ ((onMessage stEntranceServer 5 true genUnavailable reqUnknownMethod).1 =
        some (OutMessage.errorResponse 7 (-32000)
          ("Method \x27" ++ "bogus/unknown" ++ "\x27 not found"))
      ∧ ((processMessages (onMessage stEntranceServer 5 true genUnavailable
            reqUnknownMethod).2.1 5 true genUnavailable [reqCallBattle]).1).length
          = [reqCallBattle].length) :=
  ⟨by decide,
   c6_unknown_method_error_response stEntranceServer 5 true genUnavailable
     reqUnknownMethod [reqCallBattle] (by decide)⟩

/-- C8: in every reachable state, for every requested item name, the
take tool answers with the `There is no … here to take` branch and
leaves the whole state (player inventory and room items included)
unchanged, emitting no event: the ids placed in rooms are disjoint from
the item-catalog keys the handler resolves names against, so the lookup
can never hit an item present in the room. -/
theorem c8_take_always_misses (s : StateService) (sid item : String)
    (session : Session) (ps : PlayerState) (room : Room)
    (h : Reachable s)
    (hsess : getSession s sid = some session)
    (hps : getPlayerState s session.playerId = some ps)
    (hroom : mapGet s.world.rooms ps.room = some room) :
    takeHandler s (some sid) (some item) =
      Except.ok (takeNoItemResult room item, s, []) := by
  have hitems : ∀ i ∈ room.items, mapGet items i = none :=
    ((inv_reachable h).1 _ (mapGet_eq_some_mem hroom)).2.2
  unfold takeHandler
  simp only [hsess, hps, hroom]
  cases hfind : items.find? (fun p => strToLower p.2.name = strToLower item) with
  | none => simp only [hfind]; rfl
  | some found =>
    cases found with
    | mk itemId itemData =>
      simp only [hfind]
      have hmemitem : (itemId, itemData) ∈ items := List.mem_of_find?_eq_some hfind
      have hnotin : ¬ room.items.contains itemId := by
        intro hc
        have hmem : itemId ∈ room.items := by
          simpa using hc
        have hnone := hitems itemId hmem
        have hsome := mapGet_isSome_of_mem hmemitem
        rw [hnone] at hsome
        simp at hsome
      simp only [if_pos hnotin]
      rfl

/-- C8 witness: at the post-`createSession` state, asking to take the
catalog item `Golden Key` (whose id is in no room) hits the no-item
branch and leaves the state untouched. -/
theorem c8_witness :
    getSession sAfterCreate "session_1234" =
      some { id := "session_1234", playerId := "player_1", lastActive := 1 }
    ∧ takeHandler sAfterCreate (some "session_1234") (some "Golden Key") =
        Except.ok (takeNoItemResult
          { id := "entrance"
            name := "Dungeon Entrance"
            description := "You are at the entrance of a dark and foreboding dungeon. The stone walls glisten with moisture, and the air smells of earth and decay."
            exits := [("north", "hallway")]
            items := ["torch"]
            monsters := []
            hasQuest := false }
          "Golden Key", sAfterCreate, []) :=
  ⟨rfl,
   c8_take_always_misses sAfterCreate "session_1234" "Golden Key"
     { id := "session_1234", playerId := "player_1", lastActive := 1 }
     { player_id := "player_1", room := "entrance", inventory := [],
       hasQuest := false, monsterPresent := false }
     { id := "entrance"
       name := "Dungeon Entrance"
       description := "You are at the entrance of a dark and foreboding dungeon. The stone walls glisten with moisture, and the air smells of earth and decay."
       exits := [("north", "hallway")]
       items := ["torch"]
       monsters := []
       hasQuest := false }
     (Reachable.step Reachable.init (Step.create initialStateService 1))
     rfl rfl rfl⟩

end MudMcp
